import Mathlib

/-!
GSSDP client (libgssdp/gssdp-client.c)

A shallow embedding of the SSDP client: the custom header list, the send
path, and the receive path of `socket_source_cb`.

Conventions of the embedding.

* A C `char` is a Lean `Char`; a `const char *` argument is
  `Option (List Char)`: `none` is the NULL pointer and `some s` the
  characters before the terminating NUL.
* `GList *headers` is a `HeaderList`: either the live nodes (NULL is the
  live empty list) or a pointer whose nodes were released.  A function
  that would read released nodes has no defined result and returns `none`.
* Library calls whose code is outside the repository (libsoup parsers,
  ARP lookup, address printing) are fields of `Externals`.
-/

set_option autoImplicit false

namespace GSSDP

/-! ## Constants -/

/-- Size of the buffer used for reading from the socket (`BUF_SIZE`). -/
def BUF_SIZE : Nat := 65536

/-- Interface index for the loopback device (`LOOPBACK_IFINDEX`). -/
def LOOPBACK_IFINDEX : Int := 1

/-- Modelled from the spec: the macro `SSDP_ADDR` of gssdp-protocol.h, the
multicast group `239.255.255.250`. -/
def SSDP_ADDR : List Char := "239.255.255.250".toList

/-- Modelled from the spec: the macro `SSDP_PORT` of gssdp-protocol.h, port 1900. -/
def SSDP_PORT : Nat := 1900

/-- Modelled from the spec: the macro `SSDP_SEARCH_METHOD` of gssdp-protocol.h. -/
def SSDP_SEARCH_METHOD : List Char := "M-SEARCH".toList

/-- Modelled from the spec: the macro `GENA_NOTIFY_METHOD` of gssdp-protocol.h. -/
def GENA_NOTIFY_METHOD : List Char := "NOTIFY".toList

/-- Modelled from the spec: first enumerator of `_GSSDPMessageType`
(gssdp-client-private.h), the class DiscoveryRequest. -/
def _GSSDP_DISCOVERY_REQUEST : Int := 0

/-- Modelled from the spec: second enumerator of `_GSSDPMessageType`, the
class DiscoveryResponse. -/
def _GSSDP_DISCOVERY_RESPONSE : Int := 1

/-- Modelled from the spec: third enumerator of `_GSSDPMessageType`, the
class Announcement. -/
def _GSSDP_ANNOUNCEMENT : Int := 2

/-- The NUL character that terminates a C string. -/
def NUL : Char := Char.ofNat 0

/-! ## Data model -/

/-- Custom header field (`struct _GSSDPHeaderField`): `name` is never NULL
(it is the copy of a checked argument), `value` may be NULL. -/
structure GSSDPHeaderField where
  name : List Char
  value : Option (List Char)
deriving DecidableEq, Repr

/-- The value of a `GList *` of header fields together with the state of the
memory it points to. -/
inductive HeaderList where
  /-- The pointer is NULL (no nodes) or points to these allocated nodes. -/
  | live (nodes : List GSSDPHeaderField)
  /-- The pointer still holds the address of nodes that were released. -/
  | released
deriving DecidableEq, Repr

/-- An IP address object of GLib (`GInetAddress`): family and raw bytes. -/
structure GInetAddress where
  family : Nat
  bytes : List Nat
deriving DecidableEq, Repr

/-- A peer address (`GInetSocketAddress`): address and port. -/
structure GSocketAddress where
  address : GInetAddress
  port : Nat
deriving DecidableEq, Repr

/-- Modelled from the spec: `GSSDPNetworkDevice` of gssdp-net.h, the
NetworkDevice of the data model; `mask` is the IPv4 netmask word. -/
structure GSSDPNetworkDevice where
  iface_name : Option (List Char)
  host_ip : Option (List Char)
  host_addr : Option GInetAddress
  index : Int
  mask : Nat
  network : Option (List Char)
deriving DecidableEq, Repr

/-- The three roles of a socket source (`GSSDPSocketSourceType`). -/
inductive GSSDPSocketSourceType where
  | GSSDP_SOCKET_SOURCE_TYPE_REQUEST
  | GSSDP_SOCKET_SOURCE_TYPE_MULTICAST
  | GSSDP_SOCKET_SOURCE_TYPE_SEARCH
deriving DecidableEq, Repr

/-- Modelled from the spec: `GSSDPSocketSource` of gssdp-socket-source.h,
recorded by the construction properties that the client passes (`port` is
`none` when the caller passes no port) and whether it is attached. -/
structure GSSDPSocketSource where
  type : GSSDPSocketSourceType
  host_ip : Option (List Char)
  ttl : Nat
  device_name : Option (List Char)
  port : Option Nat
  attached : Bool
deriving DecidableEq, Repr

/-- The user-agent cache (`GHashTable` from hardware address to agent). -/
abbrev GHashTable := List (List Char × List Char)

/-- Private state of the client (`struct _GSSDPClientPrivate`). -/
structure GSSDPClientPrivate where
  server_id : Option (List Char)
  user_agent_cache : Option GHashTable
  socket_ttl : Nat
  msearch_port : Nat
  device : GSSDPNetworkDevice
  headers : HeaderList
  request_socket : Option GSSDPSocketSource
  multicast_socket : Option GSSDPSocketSource
  search_socket : Option GSSDPSocketSource
  active : Bool
  initialized : Bool
deriving DecidableEq, Repr

/-- The socket field of the private state that a call reads. -/
inductive SocketSlot where
  | request_socket
  | multicast_socket
  | search_socket
deriving DecidableEq, Repr

/-- One call of `g_socket_send_to`: the socket field used, the destination
address text and port, and the buffer with its length. -/
structure SendTo where
  slot : SocketSlot
  dest_ip : List Char
  dest_port : Nat
  buffer : List Char
  size : Nat
deriving DecidableEq, Repr

/-! ## Header list and send path -/

/-- The `strlen` of a C string given by its characters. -/
def strlen (s : List Char) : Nat := s.length

/-- One `g_string_append_printf (str, "%s: %s\r\n", name, value ? value : "")`. -/
def g_string_append_printf_header (str : List Char) (header : GSSDPHeaderField) : List Char :=
  str ++ (header.name ++ ": ".toList ++
    (match header.value with
     | some v => v
     | none => "".toList) ++ "\r\n".toList)

/-- The function `append_header_fields`: start from `message`, append one
line per node walking the list from its head, then append `"\r\n"`. -/
def append_header_fields (headers : List GSSDPHeaderField) (message : List Char) : List Char :=
  let str := message
  let str := headers.foldl g_string_append_printf_header str
  str ++ "\r\n".toList

/-- The function `gssdp_client_append_header`. -/
def gssdp_client_append_header (priv : GSSDPClientPrivate)
    (name : Option (List Char)) (value : Option (List Char)) : Option GSSDPClientPrivate :=
  match name with
  | none => some priv
  | some n =>
    match priv.headers with
    | HeaderList.released => none
    | HeaderList.live nodes =>
      let header : GSSDPHeaderField := ⟨n, value⟩
      some { priv with headers := HeaderList.live (nodes ++ [header]) }

/-- The function `strcmp` on two C strings: negative, zero or positive.  A
character of a string is not NUL, so it orders after the terminator of a
shorter string. -/
def strcmp : List Char → List Char → Int
  | [], [] => 0
  | [], _ :: _ => -1
  | _ :: _, [] => 1
  | c1 :: s1, c2 :: s2 =>
    if c1 = c2 then strcmp s1 s2 else (c1.toNat : Int) - (c2.toNat : Int)

/-- The function `g_strcmp0` of GLib: `strcmp` that also orders NULL first. -/
def g_strcmp0 (str1 str2 : Option (List Char)) : Int :=
  match str1, str2 with
  | none, none => 0
  | none, some _ => -1
  | some _, none => 1
  | some a, some b => strcmp a b

/-- The loop of `gssdp_client_remove_header`.  `before` are the nodes of
`priv->headers` in front of the cursor `l`, the second list the nodes from
`l` on; a matching node is unlinked, otherwise the cursor moves past it. -/
def remove_header_loop (name : List Char) (before : List GSSDPHeaderField) :
    List GSSDPHeaderField → List GSSDPHeaderField
  | [] => before
  | header :: next =>
    if g_strcmp0 (some header.name) (some name) = 0 then
      remove_header_loop name before next
    else
      remove_header_loop name (before ++ [header]) next

/-- The function `gssdp_client_remove_header`. -/
def gssdp_client_remove_header (priv : GSSDPClientPrivate)
    (name : Option (List Char)) : Option GSSDPClientPrivate :=
  match name with
  | none => some priv
  | some n =>
    match priv.headers with
    | HeaderList.released => none
    | HeaderList.live nodes =>
      some { priv with headers := HeaderList.live (remove_header_loop n [] nodes) }

/-- The function `gssdp_client_clear_headers`: `g_list_free_full` releases
every node; the field `priv->headers` is not assigned. -/
def gssdp_client_clear_headers (priv : GSSDPClientPrivate) : Option GSSDPClientPrivate :=
  match priv.headers with
  | HeaderList.released => none
  | HeaderList.live [] => some priv
  | HeaderList.live (_ :: _) => some { priv with headers := HeaderList.released }

/-- The function `_gssdp_client_send_message`: the new state and the calls
of `g_socket_send_to` it made. -/
def _gssdp_client_send_message (priv : GSSDPClientPrivate)
    (dest_ip : Option (List Char)) (dest_port : Nat)
    (message : Option (List Char)) (type : Int) :
    Option (GSSDPClientPrivate × List SendTo) :=
  match message with
  | none => some (priv, [])
  | some message =>
    if !priv.active then
      some (priv, [])
    else
      let dest_ip := match dest_ip with
        | none => SSDP_ADDR
        | some ip => ip
      let dest_port := if dest_port = 0 then SSDP_PORT else dest_port
      let socket :=
        if type = _GSSDP_DISCOVERY_REQUEST then SocketSlot.search_socket
        else SocketSlot.request_socket
      match priv.headers with
      | HeaderList.released => none
      | HeaderList.live nodes =>
        let extended_message := append_header_fields nodes message
        some (priv, [⟨socket, dest_ip, dest_port, extended_message, strlen extended_message⟩])

/-! ## User-agent cache -/

/-- The function `g_hash_table_insert`: the value stored for an existing key
is replaced, otherwise the pair is added. -/
def g_hash_table_insert (table : GHashTable) (key value : List Char) : GHashTable :=
  (key, value) :: table.filter (fun e => e.1 != key)

/-- The function `g_hash_table_lookup`. -/
def g_hash_table_lookup (table : GHashTable) (key : List Char) : Option (List Char) :=
  (table.find? (fun e => e.1 == key)).map (fun e => e.2)

/-! ## Receive path -/

/-- HTTP versions that libsoup reports (`SoupHTTPVersion`). -/
inductive SoupHTTPVersion where
  | SOUP_HTTP_1_0
  | SOUP_HTTP_1_1
deriving DecidableEq, Repr

/-- Parsed header fields (`SoupMessageHeaders`): name and value pairs. -/
abbrev SoupMessageHeaders := List (List Char × List Char)

/-- The libsoup status `SOUP_STATUS_OK`. -/
def SOUP_STATUS_OK : Nat := 200

/-- What `soup_headers_parse_request` returns and stores through its
output pointers. -/
structure SoupRequestParse where
  status : Nat
  headers : SoupMessageHeaders
  req_method : Option (List Char)
  path : Option (List Char)
  version : SoupHTTPVersion
deriving DecidableEq, Repr

/-- What `soup_headers_parse_response` returns and stores through its
output pointers. -/
structure SoupResponseParse where
  ok : Bool
  headers : SoupMessageHeaders
  status_code : Nat
deriving DecidableEq, Repr

/-- A control message of a received datagram (`GSocketControlMessage`):
either a pktinfo message with its interface index and local address, or a
message of another type. -/
inductive GSocketControlMessage where
  | pktinfo (ifindex : Int) (local_addr : GInetAddress)
  | other (tag : Nat)
deriving DecidableEq, Repr

/-- The test `GSSDP_IS_PKTINFO_MESSAGE`. -/
def GSSDP_IS_PKTINFO_MESSAGE : GSocketControlMessage → Bool
  | GSocketControlMessage.pktinfo _ _ => true
  | GSocketControlMessage.other _ => false

/-- A successful `g_socket_receive_message`: `data` are the bytes stored at
the start of `buf` (their count is the return value `bytes`), with the peer
address and the control messages. -/
structure Received where
  data : List Char
  address : GSocketAddress
  messages : List GSocketControlMessage
deriving DecidableEq, Repr

/-- One emission of the signal `message-received`. -/
structure MessageReceived where
  from_ip : List Char
  from_port : Nat
  type : Int
  headers : Option SoupMessageHeaders
deriving DecidableEq, Repr

/-- Library calls made by the receive path whose code is outside the
repository. -/
structure Externals where
  /-- Parser of libsoup, applied to the first `len` bytes of the buffer. -/
  soup_headers_parse_request : List Char → SoupRequestParse
  /-- Parser of libsoup, applied to the first `len` bytes of the buffer. -/
  soup_headers_parse_response : List Char → SoupResponseParse
  /-- Header lookup of libsoup. -/
  soup_message_headers_get_one : SoupMessageHeaders → List Char → Option (List Char)
  /-- The ARP lookup of gssdp-net.h: the hardware address of an IP, or NULL. -/
  gssdp_net_arp_lookup : GSSDPNetworkDevice → List Char → Option (List Char)
  /-- Textual form of an address. -/
  g_inet_address_to_string : GInetAddress → List Char
  /-- The word `sin_addr.s_addr` of a peer, or failure of the conversion. -/
  g_socket_address_to_native : GSocketAddress → Option Nat
  /-- The libc function `inet_addr`. -/
  inet_addr : Option (List Char) → Nat

/-- The function `gssdp_client_get_host_ip`. -/
def gssdp_client_get_host_ip (priv : GSSDPClientPrivate) : Option (List Char) :=
  priv.device.host_ip

/-- The function `gssdp_client_add_cache_entry`. -/
def gssdp_client_add_cache_entry (env : Externals) (priv : GSSDPClientPrivate)
    (ip_address user_agent : Option (List Char)) : GSSDPClientPrivate :=
  match ip_address, user_agent with
  | some ip, some agent =>
    match env.gssdp_net_arp_lookup priv.device ip with
    | some hwaddr =>
      { priv with user_agent_cache :=
          priv.user_agent_cache.map (fun table => g_hash_table_insert table hwaddr agent) }
    | none => priv
  | _, _ => priv

/-- The function `g_ascii_tolower` of GLib. -/
def g_ascii_tolower (c : Char) : Char :=
  if 65 ≤ c.toNat ∧ c.toNat ≤ 90 then Char.ofNat (c.toNat + 32) else c

/-- The comparison loop of `g_ascii_strncasecmp` on two C strings. -/
def ascii_strncasecmp_loop : List Char → List Char → Nat → Int
  | _, _, 0 => 0
  | [], [], _ + 1 => 0
  | [], c2 :: _, _ + 1 => 0 - (c2.toNat : Int)
  | c1 :: _, [], _ + 1 => (c1.toNat : Int)
  | c1 :: s1, c2 :: s2, n + 1 =>
    if g_ascii_tolower c1 ≠ g_ascii_tolower c2 then
      ((g_ascii_tolower c1).toNat : Int) - ((g_ascii_tolower c2).toNat : Int)
    else ascii_strncasecmp_loop s1 s2 n

/-- The function `g_ascii_strncasecmp` of GLib; it returns 0 when one of its
arguments is NULL. -/
def g_ascii_strncasecmp (s1 s2 : Option (List Char)) (n : Nat) : Int :=
  match s1, s2 with
  | some a, some b => ascii_strncasecmp_loop a b n
  | _, _ => 0

/-- The C string stored at the start of a buffer: the characters before the
first NUL. -/
def c_str (buf : List Char) : List Char :=
  buf.takeWhile (fun c => c != NUL)

/-- Offset of the first position of `haystack` at which `needle` starts. -/
def find_first (needle : List Char) : List Char → Option Nat
  | [] => if needle = [] then some 0 else none
  | c :: rest =>
    if needle.isPrefixOf (c :: rest) then some 0
    else (find_first needle rest).map (fun k => k + 1)

/-- The function `strstr`: offset of the first occurrence of `needle` in
the C string stored in `buf`, or NULL. -/
def strstr (buf needle : List Char) : Option Nat :=
  find_first needle (c_str buf)

/-- The function `parse_http_request`: return value, `*headers` and `*type`. -/
def parse_http_request (env : Externals) (buf : List Char) (len : Nat) (type : Int) :
    Bool × Option SoupMessageHeaders × Int :=
  let r := env.soup_headers_parse_request (buf.take len)
  if r.status = SOUP_STATUS_OK ∧ r.version = SoupHTTPVersion.SOUP_HTTP_1_1 ∧
      (r.path.isSome ∧ g_ascii_strncasecmp r.path (some "*".toList) 1 = 0) then
    let type :=
      if g_ascii_strncasecmp r.req_method (some SSDP_SEARCH_METHOD)
          (strlen SSDP_SEARCH_METHOD) = 0 then
        _GSSDP_DISCOVERY_REQUEST
      else if g_ascii_strncasecmp r.req_method (some GENA_NOTIFY_METHOD)
          (strlen GENA_NOTIFY_METHOD) = 0 then
        _GSSDP_ANNOUNCEMENT
      else type
    (true, some r.headers, type)
  else
    (false, none, type)

/-- The function `parse_http_response`: return value, `*headers` and `*type`. -/
def parse_http_response (env : Externals) (buf : List Char) (len : Nat) (type : Int) :
    Bool × Option SoupMessageHeaders × Int :=
  let r := env.soup_headers_parse_response (buf.take len)
  if r.ok ∧ r.status_code = 200 then
    (true, some r.headers, _GSSDP_DISCOVERY_RESPONSE)
  else
    (false, none, type)

/-- The pktinfo branch of the interface filter: the loop over the control
messages; `true` when control reaches the length guard, `false` on
`goto out`. -/
def pktinfo_filter (priv : GSSDPClientPrivate) : List GSocketControlMessage → Bool
  | [] => true
  | GSocketControlMessage.other _ :: rest => pktinfo_filter priv rest
  | GSocketControlMessage.pktinfo msg_ifindex local_addr :: _ =>
    if !((msg_ifindex = priv.device.index || msg_ifindex = LOOPBACK_IFINDEX) &&
          (priv.device.host_addr = some local_addr)) then
      false
    else
      true

/-- The fallback branch of the interface filter (no pktinfo): the peer must
be on the subnet of the host address. -/
def subnet_filter (env : Externals) (priv : GSSDPClientPrivate) (address : GSocketAddress) : Bool :=
  match env.g_socket_address_to_native address with
  | none => false
  | some s_addr =>
    let mask := priv.device.mask
    let our_addr := env.inet_addr (gssdp_client_get_host_ip priv)
    if (s_addr &&& mask) ≠ (our_addr &&& mask) then false else true

/-- The interface filter of `socket_source_cb`: the pktinfo loop when
`have_pktinfo` (the compile-time choice `HAVE_PKTINFO && !__APPLE__`),
otherwise the subnet check. -/
def interface_filter (env : Externals) (have_pktinfo : Bool)
    (priv : GSSDPClientPrivate) (r : Received) : Bool :=
  if have_pktinfo then pktinfo_filter priv r.messages
  else subnet_filter env priv r.address

/-- The place at which `socket_source_cb` stopped handling the datagram. -/
inductive Exit where
  /-- The receive call returned -1. -/
  | receive_failed
  /-- The interface filter jumped to `out`. -/
  | filtered
  /-- The length guard jumped to `out`. -/
  | too_long
  /-- No header terminator was found. -/
  | no_terminator
  /-- Parsing left `type` negative; nothing is emitted. -/
  | not_classified
  /-- The signal was emitted. -/
  | emitted
deriving DecidableEq, Repr

/-- Result of one run of `socket_source_cb`: the state, the signals
emitted and where the run stopped. -/
structure CbResult where
  priv : GSSDPClientPrivate
  signals : List MessageReceived
  exit : Exit
deriving DecidableEq, Repr

/-- The part of `socket_source_cb` from `Parse message` to the end: both
parsers, the cache update and the emission, for the buffer `buf` and the
header length `len`. -/
def socket_source_cb_parse (env : Externals) (priv : GSSDPClientPrivate)
    (r : Received) (buf : List Char) (len : Nat) : CbResult :=
  let type : Int := -1
  let parsed :=
    match parse_http_request env buf len type with
    | (true, headers, type) => (headers, type)
    | (false, _, type) =>
      match parse_http_response env buf len type with
      | (_, headers, type) => (headers, type)
  let headers := parsed.1
  let type := parsed.2
  let ip_string := env.g_inet_address_to_string r.address.address
  let port := r.address.port
  if type ≥ 0 then
    let agent :=
      match headers with
      | none => none
      | some h =>
        match env.soup_message_headers_get_one h "Server".toList with
        | some a => some a
        | none => env.soup_message_headers_get_one h "User-Agent".toList
    let priv :=
      match agent with
      | some a => gssdp_client_add_cache_entry env priv (some ip_string) (some a)
      | none => priv
    ⟨priv, [⟨ip_string, port, type, headers⟩], Exit.emitted⟩
  else
    ⟨priv, [], Exit.not_classified⟩

/-- The part of `socket_source_cb` from `Add trailing \\0` on: the NUL is
stored at `buf[bytes]`, the terminator is searched with `strstr`, and
`len = end - buf + 2`.  The bytes of `buf` beyond that NUL are never read. -/
def socket_source_cb_frame (env : Externals) (priv : GSSDPClientPrivate)
    (r : Received) : CbResult :=
  let buf := r.data ++ [NUL]
  match strstr buf "\r\n\r\n".toList with
  | none => ⟨priv, [], Exit.no_terminator⟩
  | some end_offset =>
    let len := end_offset + 2
    socket_source_cb_parse env priv r buf len

/-- The function `socket_source_cb`; `received` is `none` when
`g_socket_receive_message` returned -1, and `bytes` is the number of bytes
stored. -/
def socket_source_cb (env : Externals) (have_pktinfo : Bool)
    (priv : GSSDPClientPrivate) (received : Option Received) : CbResult :=
  match received with
  | none => ⟨priv, [], Exit.receive_failed⟩
  | some r =>
    let bytes := r.data.length
    if !interface_filter env have_pktinfo priv r then ⟨priv, [], Exit.filtered⟩
    else if bytes ≥ BUF_SIZE then ⟨priv, [], Exit.too_long⟩
    else socket_source_cb_frame env priv r

/-! ## Statements of the specification -/

/-- The line that the specification gives for one header:
`name: value` followed by CRLF, an absent value counting as empty. -/
def header_line (h : GSSDPHeaderField) : List Char :=
  h.name ++ ": ".toList ++ h.value.getD [] ++ "\r\n".toList

/-- The header lines of a list, in insertion order. -/
def header_lines : List GSSDPHeaderField → List Char
  | [] => []
  | h :: rest => header_line h ++ header_lines rest

/-- A client state used for concrete evaluations: interface `eth0` with
index 2 and host address 192.168.1.10. -/
def sample_priv : GSSDPClientPrivate :=
  { server_id := some "Linux/6.0 GSSDP/1.0".toList
    user_agent_cache := some []
    socket_ttl := 4
    msearch_port := 0
    device :=
      { iface_name := some "eth0".toList
        host_ip := some "192.168.1.10".toList
        host_addr := some ⟨2, [192, 168, 1, 10]⟩
        index := 2
        mask := 4294967040
        network := none }
    headers := HeaderList.live []
    request_socket := none
    multicast_socket := none
    search_socket := none
    active := true
    initialized := true }

/-- Whether `needle` stands in `data` at offset `k`. -/
def occurs_at (needle data : List Char) (k : Nat) : Bool :=
  needle.isPrefixOf (data.drop k)

/-- Whether `m` begins with `p` when ASCII letter case is ignored. -/
def begins_with_nocase (p m : List Char) : Bool :=
  (m.take p.length).map g_ascii_tolower == p.map g_ascii_tolower

/-- Library calls for concrete evaluations: the two parsers return the
given results for every input, header lookup is by name without regard to
ASCII case, the ARP table is empty, the address prints as dotted bytes of
192.168.1.42 and converts to its 32-bit word. -/
def sample_env (req : SoupRequestParse) (resp : SoupResponseParse) : Externals :=
  { soup_headers_parse_request := fun _ => req
    soup_headers_parse_response := fun _ => resp
    soup_message_headers_get_one := fun h name =>
      (h.find? (fun e => e.1.map g_ascii_tolower == name.map g_ascii_tolower)).map (fun e => e.2)
    gssdp_net_arp_lookup := fun _ _ => none
    g_inet_address_to_string := fun _ => "192.168.1.42".toList
    g_socket_address_to_native := fun _ => some 3232235818
    inet_addr := fun _ => 3232235786 }

/-- A request parse that fails. -/
def sample_bad_request : SoupRequestParse :=
  ⟨400, [], none, none, SoupHTTPVersion.SOUP_HTTP_1_0⟩

/-- A response parse that fails. -/
def sample_bad_response : SoupResponseParse :=
  ⟨false, [], 0⟩

/-- The peer 192.168.1.42, port 51000. -/
def sample_peer : GSocketAddress :=
  ⟨⟨2, [192, 168, 1, 42]⟩, 51000⟩

/-- The M-SEARCH datagram of the first scenario of the specification. -/
def sample_msearch : List Char :=
  "M-SEARCH * HTTP/1.1\r\nHOST: 239.255.255.250:1900\r\nST: ssdp:all\r\n\r\n".toList

/-- A datagram from the sample peer with one other control message and then
a pktinfo message carrying the given interface index and local address. -/
def sample_received (data : List Char) (ifindex : Int) (local_addr : GInetAddress) : Received :=
  ⟨data, sample_peer,
   [GSocketControlMessage.other 0, GSocketControlMessage.pktinfo ifindex local_addr]⟩

/-- A NOTIFY datagram with a zero byte inside a header value, in front of
the blank line. -/
def nul_before_terminator : List Char :=
  "NOTIFY * HTTP/1.1\r\nX: a\x00b\r\n\r\n".toList

/-- A request parse that accepts a NOTIFY for `*` in version 1.1. -/
def sample_notify_request : SoupRequestParse :=
  ⟨200, [("X".toList, "a".toList)], some "NOTIFY".toList, some "*".toList,
   SoupHTTPVersion.SOUP_HTTP_1_1⟩

/-- A request parse that accepts the method `NOTIFYX` for `*` in version 1.1. -/
def sample_notifyx_request : SoupRequestParse :=
  ⟨200, [("HOST".toList, "239.255.255.250:1900".toList)], some "NOTIFYX".toList,
   some "*".toList, SoupHTTPVersion.SOUP_HTTP_1_1⟩

/-- The datagram whose request line has the method `NOTIFYX`. -/
def sample_notifyx : List Char :=
  "NOTIFYX * HTTP/1.1\r\nHOST: 239.255.255.250:1900\r\n\r\n".toList

/-! ## Cache lookup and initialisation -/

/-- The function `gssdp_client_guess_user_agent`: the state it leaves and
the agent it returns (NULL when the address does not resolve). -/
def gssdp_client_guess_user_agent (env : Externals) (priv : GSSDPClientPrivate)
    (ip_address : Option (List Char)) : GSSDPClientPrivate × Option (List Char) :=
  match ip_address with
  | none => (priv, none)
  | some ip =>
    match env.gssdp_net_arp_lookup priv.device ip with
    | some hwaddr =>
      let agent :=
        match priv.user_agent_cache with
        | some table => g_hash_table_lookup table hwaddr
        | none => none
      (priv, agent)
    | none => (priv, none)

/-- Modelled from the spec: the error kinds of gssdp-error.h (NoIpAddress
and the generic InitFailed); errors of other libraries are `foreign`. -/
inductive GErrorKind where
  | GSSDP_ERROR_NO_IP_ADDRESS
  | GSSDP_ERROR_FAILED
  | foreign (code : Nat)
deriving DecidableEq, Repr

/-- An error object (`GError`): kind and message. -/
structure GError where
  kind : GErrorKind
  message : List Char
deriving DecidableEq, Repr

/-- Library calls made by initialisation whose code is outside the
repository. -/
structure NetExternals where
  /-- The call `gssdp_net_init`: `none` when it returns TRUE, else its error. -/
  gssdp_net_init : Option GError
  /-- The probe `gssdp_net_get_host_ip`, which fills in the device. -/
  gssdp_net_get_host_ip : GSSDPNetworkDevice → GSSDPNetworkDevice
  /-- The call `gssdp_net_query_ifindex`. -/
  gssdp_net_query_ifindex : GSSDPNetworkDevice → Int
  /-- The call `g_inet_address_new_from_string`. -/
  g_inet_address_new_from_string : List Char → Option GInetAddress
  /-- Construction of a socket source with the given properties: `none`
  when the object is returned, else the error stored and NULL returned. -/
  socket_source_init : GSSDPSocketSource → Option GError

/-- The function `init_network_info`: the state it leaves and the error it
sets; it returns TRUE exactly when no error is set. -/
def init_network_info (net : NetExternals) (priv : GSSDPClientPrivate) :
    GSSDPClientPrivate × Option GError :=
  let device :=
    if priv.device.iface_name = none ∨ priv.device.host_ip = none then
      net.gssdp_net_get_host_ip priv.device
    else
      { priv.device with index := net.gssdp_net_query_ifindex priv.device }
  let device :=
    match device.host_addr, device.host_ip with
    | none, some host_ip =>
      { device with host_addr := net.g_inet_address_new_from_string host_ip }
    | _, _ => device
  let priv := { priv with device := device }
  match device.iface_name with
  | none => (priv, some ⟨GErrorKind.GSSDP_ERROR_FAILED, "No default route?".toList⟩)
  | some iface_name =>
    match device.host_ip with
    | none =>
      (priv, some ⟨GErrorKind.GSSDP_ERROR_NO_IP_ADDRESS,
        "Failed to find IP of interface ".toList ++ iface_name⟩)
    | some _ => (priv, none)

/-- The function `gssdp_socket_source_attach`. -/
def gssdp_socket_source_attach (source : GSSDPSocketSource) : GSSDPSocketSource :=
  { source with attached := true }

/-- What `gssdp_client_initable_init` returns: the state, the return value
and the error stored through `error`. -/
structure InitResult where
  priv : GSSDPClientPrivate
  ret : Bool
  error : Option GError
deriving DecidableEq, Repr

/-- The part of `gssdp_client_initable_init` from `Set up sockets` to the
label `errors`: the three sources are created in turn, a failure assigns
NULL to its field and jumps; the result is the state and `internal_error`. -/
def init_sockets (net : NetExternals) (priv : GSSDPClientPrivate) :
    GSSDPClientPrivate × Option GError :=
  let request : GSSDPSocketSource :=
    ⟨GSSDPSocketSourceType.GSSDP_SOCKET_SOURCE_TYPE_REQUEST, gssdp_client_get_host_ip priv,
     priv.socket_ttl, priv.device.iface_name, none, false⟩
  match net.socket_source_init request with
  | some e => ({ priv with request_socket := none }, some e)
  | none =>
    let priv := { priv with request_socket := some request }
    let multicast : GSSDPSocketSource :=
      ⟨GSSDPSocketSourceType.GSSDP_SOCKET_SOURCE_TYPE_MULTICAST, gssdp_client_get_host_ip priv,
       priv.socket_ttl, priv.device.iface_name, none, false⟩
    match net.socket_source_init multicast with
    | some e => ({ priv with multicast_socket := none }, some e)
    | none =>
      let priv := { priv with multicast_socket := some multicast }
      let search : GSSDPSocketSource :=
        ⟨GSSDPSocketSourceType.GSSDP_SOCKET_SOURCE_TYPE_SEARCH, gssdp_client_get_host_ip priv,
         priv.socket_ttl, priv.device.iface_name, some priv.msearch_port, false⟩
      match net.socket_source_init search with
      | some e => ({ priv with search_socket := none }, some e)
      | none => ({ priv with search_socket := some search }, none)

/-- The part of `gssdp_client_initable_init` from the label `errors` on. -/
def init_errors_label (priv : GSSDPClientPrivate) (internal_error : Option GError) :
    InitResult :=
  match priv.request_socket, priv.multicast_socket, priv.search_socket with
  | some request, some multicast, some search =>
    ⟨{ priv with
        request_socket := some (gssdp_socket_source_attach request)
        multicast_socket := some (gssdp_socket_source_attach multicast)
        search_socket := some (gssdp_socket_source_attach search)
        initialized := true
        user_agent_cache := some [] }, true, none⟩
  | _, _, _ =>
    ⟨{ priv with request_socket := none, multicast_socket := none, search_socket := none },
     false, internal_error⟩

/-- The function `gssdp_client_initable_init`. -/
def gssdp_client_initable_init (net : NetExternals) (priv : GSSDPClientPrivate) : InitResult :=
  if priv.initialized then ⟨priv, true, none⟩
  else
    match net.gssdp_net_init with
    | some e => ⟨priv, false, some e⟩
    | none =>
      match init_network_info net priv with
      | (priv, some e) => init_errors_label priv (some e)
      | (priv, none) =>
        match init_sockets net priv with
        | (priv, internal_error) => init_errors_label priv internal_error

/-- The pair `headers`, `type` that `socket_source_cb` holds after its two
parse attempts on the buffer with header length `len`. -/
def parse_message (env : Externals) (buf : List Char) (len : Nat) :
    Option SoupMessageHeaders × Int :=
  match parse_http_request env buf len (-1) with
  | (true, headers, type) => (headers, type)
  | (false, _, type) =>
    match parse_http_response env buf len type with
    | (_, headers, type) => (headers, type)

/-- The agent that `socket_source_cb` takes from parsed headers: the
Server value, else the User-Agent value. -/
def agent_of (env : Externals) (h : SoupMessageHeaders) : Option (List Char) :=
  match env.soup_message_headers_get_one h "Server".toList with
  | some a => some a
  | none => env.soup_message_headers_get_one h "User-Agent".toList

/-- Library calls for concrete evaluations of initialisation: the probe
finds interface `eth0` with address 192.168.1.10 when asked to fill in the
device, and a socket source fails exactly when its type is `failing`. -/
def sample_net (failing : Option GSSDPSocketSourceType) : NetExternals :=
  { gssdp_net_init := none
    gssdp_net_get_host_ip := fun d =>
      { d with iface_name := some "eth0".toList, host_ip := some "192.168.1.10".toList,
               index := 2, mask := 4294967040 }
    gssdp_net_query_ifindex := fun _ => 2
    g_inet_address_new_from_string := fun _ => some ⟨2, [192, 168, 1, 10]⟩
    socket_source_init := fun source =>
      if some source.type = failing then
        some ⟨GErrorKind.foreign 98, "Address already in use".toList⟩
      else none }

/-- A client state after construction and before initialisation. -/
def sample_fresh : GSSDPClientPrivate :=
  { server_id := some "Linux/6.0 GSSDP/1.0".toList
    user_agent_cache := none
    socket_ttl := 4
    msearch_port := 0
    device :=
      { iface_name := none
        host_ip := none
        host_addr := none
        index := 0
        mask := 0
        network := none }
    headers := HeaderList.live []
    request_socket := none
    multicast_socket := none
    search_socket := none
    active := true
    initialized := false }

/-- A request parse that accepts an M-SEARCH in version 1.1 whose target is
the two characters `*x`. -/
def sample_star_x_request : SoupRequestParse :=
  ⟨200, [("ST".toList, "ssdp:all".toList)], some "M-SEARCH".toList, some "*x".toList,
   SoupHTTPVersion.SOUP_HTTP_1_1⟩

/-- The datagram whose request line has the target `*x`. -/
def sample_star_x : List Char :=
  "M-SEARCH *x HTTP/1.1\r\nST: ssdp:all\r\n\r\n".toList

/-- A response parse that succeeds with status 200. -/
def sample_ok_response : SoupResponseParse :=
  ⟨true, [("ST".toList, "upnp:rootdevice".toList)], 200⟩

/-- The response datagram of the third scenario of the specification. -/
def sample_response : List Char :=
  "HTTP/1.1 200 OK\r\nST: upnp:rootdevice\r\n\r\n".toList

/-- A request parse that accepts an M-SEARCH for `*` in version 1.0. -/
def sample_http10_request : SoupRequestParse :=
  ⟨200, [("ST".toList, "ssdp:all".toList)], some "M-SEARCH".toList, some "*".toList,
   SoupHTTPVersion.SOUP_HTTP_1_0⟩

/-- Library calls as in `sample_env`, with an ARP table that resolves
192.168.1.42 and 192.168.1.43 to the hardware address 00:11:22:33:44:55. -/
def sample_arp_env (req : SoupRequestParse) (resp : SoupResponseParse) : Externals :=
  { sample_env req resp with
    gssdp_net_arp_lookup := fun _ ip =>
      if ip = "192.168.1.42".toList ∨ ip = "192.168.1.43".toList then
        some "00:11:22:33:44:55".toList
      else none }

/-- A request parse that accepts the NOTIFY of the second scenario of the
specification, with its SERVER header. -/
def sample_server_request : SoupRequestParse :=
  ⟨200, [("NT".toList, "upnp:rootdevice".toList), ("SERVER".toList, "Linux/5 GSSDP/1".toList)],
   some "NOTIFY".toList, some "*".toList, SoupHTTPVersion.SOUP_HTTP_1_1⟩

/-- A NOTIFY datagram with a SERVER header. -/
def sample_notify : List Char :=
  "NOTIFY * HTTP/1.1\r\nNT: upnp:rootdevice\r\nSERVER: Linux/5 GSSDP/1\r\n\r\n".toList

/-- A client on which initialisation has not run or has failed: not
initialised and without socket sources. -/
def not_initialized (priv : GSSDPClientPrivate) : GSSDPClientPrivate :=
  { priv with initialized := false, request_socket := none,
              multicast_socket := none, search_socket := none }

/-- The request source that initialisation asks for. -/
def request_source (priv : GSSDPClientPrivate) : GSSDPSocketSource :=
  ⟨GSSDPSocketSourceType.GSSDP_SOCKET_SOURCE_TYPE_REQUEST, priv.device.host_ip,
   priv.socket_ttl, priv.device.iface_name, none, false⟩

/-- The multicast source that initialisation asks for. -/
def multicast_source (priv : GSSDPClientPrivate) : GSSDPSocketSource :=
  ⟨GSSDPSocketSourceType.GSSDP_SOCKET_SOURCE_TYPE_MULTICAST, priv.device.host_ip,
   priv.socket_ttl, priv.device.iface_name, none, false⟩

/-- The search source that initialisation asks for. -/
def search_source (priv : GSSDPClientPrivate) : GSSDPSocketSource :=
  ⟨GSSDPSocketSourceType.GSSDP_SOCKET_SOURCE_TYPE_SEARCH, priv.device.host_ip,
   priv.socket_ttl, priv.device.iface_name, some priv.msearch_port, false⟩

/-- The device after the probe step of `init_network_info`. -/
def probed_device (net : NetExternals) (priv : GSSDPClientPrivate) : GSSDPNetworkDevice :=
  if priv.device.iface_name = none ∨ priv.device.host_ip = none then
    net.gssdp_net_get_host_ip priv.device
  else
    { priv.device with index := net.gssdp_net_query_ifindex priv.device }

/-- Library calls for concrete evaluations in which the probe finds no
interface and leaves the device as it is. -/
def sample_net_no_route : NetExternals :=
  { sample_net none with gssdp_net_get_host_ip := fun d => d }

/-- The second step of `init_network_info`: the host address is parsed
from the host IP when it is not yet set. -/
def with_host_addr (net : NetExternals) (device : GSSDPNetworkDevice) : GSSDPNetworkDevice :=
  match device.host_addr, device.host_ip with
  | none, some host_ip =>
    { device with host_addr := net.g_inet_address_new_from_string host_ip }
  | _, _ => device

/-- The last step of `init_network_info`: the two checks on the device. -/
def network_info_checks (priv : GSSDPClientPrivate) (device : GSSDPNetworkDevice) :
    GSSDPClientPrivate × Option GError :=
  match device.iface_name with
  | none =>
    ({ priv with device := device },
     some ⟨GErrorKind.GSSDP_ERROR_FAILED, "No default route?".toList⟩)
  | some iface_name =>
    match device.host_ip with
    | none =>
      ({ priv with device := device },
       some ⟨GErrorKind.GSSDP_ERROR_NO_IP_ADDRESS,
        "Failed to find IP of interface ".toList ++ iface_name⟩)
    | some _ => ({ priv with device := device }, none)

/-- A state with the three socket fields cleared (`g_clear_object`). -/
def clear_sockets (priv : GSSDPClientPrivate) : GSSDPClientPrivate :=
  { priv with request_socket := none, multicast_socket := none, search_socket := none }

/-- The state that a successful initialisation builds from the state `priv`
left by `init_network_info`: three attached sources, the flag and an empty
cache. -/
def initialized_state (priv : GSSDPClientPrivate) : GSSDPClientPrivate :=
  { priv with
    request_socket := some (gssdp_socket_source_attach (request_source priv))
    multicast_socket := some (gssdp_socket_source_attach (multicast_source priv))
    search_socket := some (gssdp_socket_source_attach (search_source priv))
    initialized := true
    user_agent_cache := some [] }

/-- A fresh client configured with `msearch-port` 1900. -/
def sample_fresh_1900 : GSSDPClientPrivate :=
  { sample_fresh with msearch_port := 1900 }

/-- A request parse that accepts the lower-case method `m-search` for the
target `*` in version 1.1. -/
def sample_lowercase_request : SoupRequestParse :=
  ⟨200, [("ST".toList, "ssdp:all".toList)], some "m-search".toList, some "*".toList,
   SoupHTTPVersion.SOUP_HTTP_1_1⟩

/-- The body of the fifth scenario of the specification. -/
def sample_body : List Char :=
  "M-SEARCH * HTTP/1.1\r\nHOST: 239.255.255.250:1900\r\n".toList

/-- The custom headers of the fifth scenario of the specification. -/
def sample_headers : List GSSDPHeaderField :=
  [⟨"X-Foo".toList, some "1".toList⟩, ⟨"X-Foo".toList, some "2".toList⟩,
   ⟨"Y".toList, some "".toList⟩]

/-! ## Lemmas on the header list -/

theorem foldl_append_printf (headers : List GSSDPHeaderField) (str : List Char) :
    headers.foldl g_string_append_printf_header str = str ++ header_lines headers := by
  induction headers generalizing str with
  | nil => simp [header_lines]
  | cons h rest ih =>
    rw [List.foldl_cons, ih]
    cases hv : h.value <;>
      simp [g_string_append_printf_header, header_lines, header_line, hv, List.append_assoc]

theorem append_header_fields_eq (headers : List GSSDPHeaderField) (message : List Char) :
    append_header_fields headers message
      = message ++ header_lines headers ++ "\r\n".toList := by
  simp [append_header_fields, foldl_append_printf]

theorem strcmp_eq_zero_iff (a b : List Char) : strcmp a b = 0 ↔ a = b := by
  induction a generalizing b with
  | nil => cases b <;> simp [strcmp]
  | cons c1 s1 ih =>
    cases b with
    | nil => simp [strcmp]
    | cons c2 s2 =>
      by_cases hc : c1 = c2
      · simp [strcmp, hc, ih]
      · have hne : (c1.toNat : Int) - (c2.toNat : Int) ≠ 0 := by
          intro h
          apply hc
          apply Char.ext
          apply UInt32.ext
          have : c1.toNat = c2.toNat := by omega
          exact this
        simp [strcmp, hc, hne]

theorem remove_header_loop_eq (name : List Char) (before l : List GSSDPHeaderField) :
    remove_header_loop name before l
      = before ++ l.filter (fun e => decide (e.name ≠ name)) := by
  induction l generalizing before with
  | nil => simp [remove_header_loop]
  | cons h next ih =>
    by_cases hn : h.name = name
    · simp [remove_header_loop, g_strcmp0, strcmp_eq_zero_iff, hn, ih]
    · simp [remove_header_loop, g_strcmp0, strcmp_eq_zero_iff, hn, ih]

theorem filter_ne_length (L : List GSSDPHeaderField) (n : List Char) :
    (L.filter (fun e => decide (e.name ≠ n))).length
      = L.length - L.countP (fun e => decide (e.name = n)) := by
  have key : (L.filter (fun e => decide (e.name ≠ n))).length
      + L.countP (fun e => decide (e.name = n)) = L.length := by
    induction L with
    | nil => simp
    | cons h rest ih =>
      have ih2 : (List.filter (fun e => !decide (e.name = n)) rest).length
          + List.countP (fun e => decide (e.name = n)) rest = rest.length := by
        simpa using ih
      by_cases hn : h.name = n
      · simp [hn]
        omega
      · simp [hn]
        omega
  omega

/-! ## Send path and header list: claims C1 to C6 -/

/-- C1: for every body and every header list, `append_header_fields` gives
the body, then one line `name: value` CRLF per header in insertion order
(an absent value counting as empty), then one final CRLF; this is the
buffer, with its full length, that `_gssdp_client_send_message` hands to
the socket of an active client, whatever the rest of the client state; and
with the headers X-Foo 1, X-Foo 2 and Y (empty value) the bytes end with
the three header lines and the blank line. -/
theorem C1_send_message_framing (priv : GSSDPClientPrivate)
    (nodes : List GSSDPHeaderField) (body : List Char)
    (dest_ip : Option (List Char)) (dest_port : Nat) (type : Int) :
    append_header_fields nodes body = body ++ header_lines nodes ++ "\r\n".toList
    ∧ (_gssdp_client_send_message
          { priv with active := true, headers := HeaderList.live nodes }
          dest_ip dest_port (some body) type).map
        (fun res => res.2.map (fun call => (call.buffer, call.size)))
      = some [(body ++ header_lines nodes ++ "\r\n".toList,
               (body ++ header_lines nodes ++ "\r\n".toList).length)]
    ∧ "X-Foo: 1\r\nX-Foo: 2\r\nY: \r\n\r\n".toList <:+
        append_header_fields
          [⟨"X-Foo".toList, some "1".toList⟩, ⟨"X-Foo".toList, some "2".toList⟩,
           ⟨"Y".toList, some "".toList⟩] body := by
  refine ⟨append_header_fields_eq nodes body, ?_, ?_⟩
  · simp [_gssdp_client_send_message, append_header_fields_eq, strlen]
  · rw [append_header_fields_eq]
    exact ⟨body, by simp [header_lines, header_line]⟩

/-- C2: when the active flag is false, `_gssdp_client_send_message` makes
no call of `g_socket_send_to` and returns the client state unchanged, for
every destination, message and class, and whatever the header list is. -/
theorem C2_inactive_sends_nothing (priv : GSSDPClientPrivate)
    (dest_ip : Option (List Char)) (dest_port : Nat)
    (message : Option (List Char)) (type : Int) :
    _gssdp_client_send_message { priv with active := false } dest_ip dest_port message type
      = some ({ priv with active := false }, []) := by
  cases message <;> simp [_gssdp_client_send_message]

/-- C3: an active client (with a header list) makes exactly one call of
`g_socket_send_to` and keeps its state: through the search socket exactly
when the class is DiscoveryRequest and through the request socket
otherwise, to `dest_ip` (239.255.255.250 when NULL) and `dest_port` (1900
when 0); a given address and a non-zero port are used unchanged. -/
theorem C3_destination_and_endpoint (priv : GSSDPClientPrivate)
    (nodes : List GSSDPHeaderField) (dest_ip : Option (List Char)) (dest_port : Nat)
    (body : List Char) (type : Int) :
    ∃ call : SendTo,
      _gssdp_client_send_message
          { priv with active := true, headers := HeaderList.live nodes }
          dest_ip dest_port (some body) type
        = some ({ priv with active := true, headers := HeaderList.live nodes }, [call])
      ∧ (call.slot = SocketSlot.search_socket ↔ type = _GSSDP_DISCOVERY_REQUEST)
      ∧ (call.slot = SocketSlot.request_socket ↔ type ≠ _GSSDP_DISCOVERY_REQUEST)
      ∧ call.dest_ip = (match dest_ip with
          | none => "239.255.255.250".toList
          | some ip => ip)
      ∧ call.dest_port = (if dest_port = 0 then 1900 else dest_port) := by
  refine ⟨⟨if type = _GSSDP_DISCOVERY_REQUEST then SocketSlot.search_socket
            else SocketSlot.request_socket,
          (match dest_ip with
            | none => SSDP_ADDR
            | some ip => ip),
          if dest_port = 0 then SSDP_PORT else dest_port,
          append_header_fields nodes body,
          strlen (append_header_fields nodes body)⟩, ?_, ?_⟩
  · simp [_gssdp_client_send_message]
  · by_cases ht : type = _GSSDP_DISCOVERY_REQUEST <;>
      cases dest_ip <;> simp [ht, SSDP_ADDR, SSDP_PORT]

/-- C4: `gssdp_client_remove_header` with name `n` leaves exactly the
entries whose name differs from `n`, in their original order; the length
drops by the number of entries named `n`; every entry with another name is
kept, and so is one that differs from `n` only in letter case. -/
theorem C4_remove_header_filters (priv : GSSDPClientPrivate)
    (L : List GSSDPHeaderField) (n : List Char) :
    gssdp_client_remove_header { priv with headers := HeaderList.live L } (some n)
      = some { priv with
          headers := HeaderList.live (L.filter (fun e => decide (e.name ≠ n))) }
    ∧ (L.filter (fun e => decide (e.name ≠ n))).length
        = L.length - L.countP (fun e => decide (e.name = n))
    ∧ (∀ e ∈ L, e.name ≠ n → e ∈ L.filter (fun e => decide (e.name ≠ n)))
    ∧ gssdp_client_remove_header
        { priv with headers := HeaderList.live (
            [⟨"x-foo".toList, some "1".toList⟩, ⟨"X-Foo".toList, some "2".toList⟩,
             ⟨"Y".toList, none⟩]) }
        (some "X-Foo".toList)
      = some { priv with headers := HeaderList.live (
            [⟨"x-foo".toList, some "1".toList⟩, ⟨"Y".toList, none⟩]) } := by
  refine ⟨?_, ?_, ?_, ?_⟩
  · simp [gssdp_client_remove_header, remove_header_loop_eq]
  · exact filter_ne_length L n
  · intro e he hne
    simp [List.mem_filter, he, hne]
  · simp [gssdp_client_remove_header, remove_header_loop_eq]

/-- C5: `gssdp_client_append_header` with a non-NULL name `n` and any value
`v` (empty or NULL included) turns the header list `L` into `L ++ [(n, v)]`:
the old entries stay in place, also those named `n`, and the new entry is
the last one. -/
theorem C5_append_header_appends (priv : GSSDPClientPrivate)
    (L : List GSSDPHeaderField) (n : List Char) (v : Option (List Char)) :
    gssdp_client_append_header { priv with headers := HeaderList.live L } (some n) v
      = some { priv with headers := HeaderList.live (L ++ [⟨n, v⟩]) }
    ∧ (L ++ [(⟨n, v⟩ : GSSDPHeaderField)]).take L.length = L
    ∧ (L ++ [(⟨n, v⟩ : GSSDPHeaderField)]).getLast? = some ⟨n, v⟩
    ∧ (L ++ [(⟨n, v⟩ : GSSDPHeaderField)]).countP (fun e => decide (e.name = n))
        = L.countP (fun e => decide (e.name = n)) + 1 := by
  refine ⟨?_, ?_, ?_, ?_⟩
  · simp [gssdp_client_append_header]
  · simp
  · simp
  · simp [List.countP_append]

/-- C6 (evaluation of the code): `gssdp_client_clear_headers` on a client
with the one header X-Foo 1 releases the node but leaves the field
`priv->headers` pointing at it, so the field is not the empty list; a
following send or append reads released memory and has no defined result;
the same holds for every non-empty list. -/
theorem C6_clear_headers_keeps_stale_pointer :
    gssdp_client_clear_headers
        { sample_priv with headers := HeaderList.live [⟨"X-Foo".toList, some "1".toList⟩] }
      = some { sample_priv with headers := HeaderList.released }
    ∧ HeaderList.released ≠ HeaderList.live []
    ∧ _gssdp_client_send_message { sample_priv with headers := HeaderList.released }
        none 0 (some "M-SEARCH * HTTP/1.1\r\n".toList) _GSSDP_DISCOVERY_REQUEST = none
    ∧ gssdp_client_append_header { sample_priv with headers := HeaderList.released }
        (some "Y".toList) (some "2".toList) = none
    ∧ (∀ (priv : GSSDPClientPrivate) (h : GSSDPHeaderField) (rest : List GSSDPHeaderField),
        gssdp_client_clear_headers { priv with headers := HeaderList.live (h :: rest) }
          = some { priv with headers := HeaderList.released }) := by
  refine ⟨rfl, by decide, rfl, rfl, ?_⟩
  intro priv h rest
  rfl

/-! ## Lemmas on the receive path -/

theorem pktinfo_filter_first (priv : GSSDPClientPrivate) (msgs : List GSocketControlMessage)
    (ifindex : Int) (local_addr : GInetAddress)
    (h : msgs.find? GSSDP_IS_PKTINFO_MESSAGE
          = some (GSocketControlMessage.pktinfo ifindex local_addr)) :
    pktinfo_filter priv msgs
      = decide ((ifindex = priv.device.index ∨ ifindex = LOOPBACK_IFINDEX)
                ∧ priv.device.host_addr = some local_addr) := by
  induction msgs with
  | nil => simp at h
  | cons m rest ih =>
    cases m with
    | other tag =>
      simp only [List.find?, GSSDP_IS_PKTINFO_MESSAGE] at h
      simp only [pktinfo_filter]
      exact ih h
    | pktinfo i a =>
      simp only [List.find?, GSSDP_IS_PKTINFO_MESSAGE, Option.some.injEq,
        GSocketControlMessage.pktinfo.injEq] at h
      obtain ⟨hi, ha⟩ := h
      subst hi
      subst ha
      by_cases h1 : (i = priv.device.index ∨ i = LOOPBACK_IFINDEX)
          ∧ priv.device.host_addr = some a
      · obtain ⟨h1a, h1b⟩ := h1
        rcases h1a with h1a | h1a <;> simp [pktinfo_filter, h1a, h1b]
      · simp only [h1, decide_False]
        simp only [pktinfo_filter]
        rw [not_and_or] at h1
        rcases h1 with h1 | h1
        · rw [not_or] at h1
          simp [h1.1, h1.2]
        · simp [h1]

theorem c_str_append_nul (data : List Char) : c_str (data ++ [NUL]) = c_str data := by
  induction data with
  | nil => simp [c_str]
  | cons c rest ih =>
    simp only [c_str] at ih
    by_cases hc : c = NUL
    · simp [c_str, hc]
    · simp [c_str, hc, ih]

theorem c_str_is_prefix_of (data : List Char) : c_str data <+: data := by
  unfold c_str
  exact List.takeWhile_prefix _

theorem find_first_none_of_prefix_of (needle : List Char) (hne : needle ≠ [])
    (l p : List Char) (hp : p <+: l) (h : find_first needle l = none) :
    find_first needle p = none := by
  induction l generalizing p with
  | nil =>
    have : p = [] := List.prefix_nil.mp hp
    subst this
    simp [find_first, hne]
  | cons c rest ih =>
    cases p with
    | nil => simp [find_first, hne]
    | cons d p2 =>
      have hd : d = c ∧ p2 <+: rest := by
        rw [List.cons_prefix_cons] at hp
        exact hp
      obtain ⟨hdc, hp2⟩ := hd
      subst hdc
      simp only [find_first] at h ⊢
      by_cases hpre : needle.isPrefixOf (d :: rest) = true
      · simp [hpre] at h
      · simp only [hpre, Bool.false_eq_true, if_false] at h
        have h : find_first needle rest = none := by
          cases hf : find_first needle rest with
          | none => rfl
          | some j => simp [hf] at h
        have hpre2 : ¬ needle.isPrefixOf (d :: p2) = true := by
          intro hh
          apply hpre
          rw [List.isPrefixOf_iff_prefix] at hh ⊢
          exact hh.trans ((List.cons_prefix_cons).mpr ⟨rfl, hp2⟩)
        simp only [hpre2, Bool.false_eq_true, if_false, ih p2 hp2 h, Option.map_none']

theorem c_str_append_of_no_nul (needle rest : List Char) (hn : ∀ c ∈ needle, c ≠ NUL) :
    c_str (needle ++ rest) = needle ++ c_str rest := by
  induction needle with
  | nil => simp
  | cons c n2 ih =>
    have hc : c ≠ NUL := hn c (by simp)
    have ih2 := ih (fun x hx => hn x (by simp [hx]))
    simp only [c_str] at ih2
    simp [c_str, hc, ih2]

theorem find_first_c_str (needle : List Char) (hn : ∀ c ∈ needle, c ≠ NUL)
    (data : List Char) (k : Nat) (h : find_first needle data = some k)
    (hz : ∀ c ∈ data.take k, c ≠ NUL) :
    find_first needle (c_str data) = some k := by
  induction data generalizing k with
  | nil =>
    simp only [find_first] at h
    by_cases hnil : needle = []
    · simp [hnil] at h
      subst h
      simp [c_str, find_first, hnil]
    · simp [hnil] at h
  | cons c rest ih =>
    simp only [find_first] at h
    by_cases hpre : needle.isPrefixOf (c :: rest) = true
    · simp only [hpre, if_true, Option.some.injEq] at h
      subst h
      rw [List.isPrefixOf_iff_prefix] at hpre
      obtain ⟨t, ht⟩ := hpre
      rw [← ht, c_str_append_of_no_nul needle t hn]
      cases hneedle : needle with
      | nil => cases hc : c_str t <;> simp [find_first]
      | cons a n2 =>
        have hp : (a :: n2).isPrefixOf (a :: n2 ++ c_str t) = true := by
          rw [List.isPrefixOf_iff_prefix]
          exact List.prefix_append _ _
        simp only [List.cons_append] at hp ⊢
        simp only [find_first, hp, if_true]
    · simp only [hpre, Bool.false_eq_true, if_false] at h
      obtain ⟨j, hj, hjk⟩ : ∃ j, find_first needle rest = some j ∧ j + 1 = k := by
        cases hf : find_first needle rest with
        | none => simp [hf] at h
        | some j => exact ⟨j, rfl, by simpa [hf] using h⟩
      subst hjk
      have hc : c ≠ NUL := hz c (by simp)
      have hz2 : ∀ x ∈ rest.take j, x ≠ NUL := by
        intro x hx
        exact hz x (by simp [hx])
      have ih2 := ih j hj hz2
      have hcs : c_str (c :: rest) = c :: c_str rest := by
        simp [c_str, hc]
      rw [hcs]
      have hpre2 : ¬ needle.isPrefixOf (c :: c_str rest) = true := by
        intro hh
        apply hpre
        rw [List.isPrefixOf_iff_prefix] at hh ⊢
        exact hh.trans ((List.cons_prefix_cons).mpr ⟨rfl, c_str_is_prefix_of rest⟩)
      simp only [find_first, hpre2, Bool.false_eq_true, if_false, ih2]
      rfl

theorem find_first_spec (needle data : List Char) (k : Nat)
    (h : find_first needle data = some k) :
    data.drop k = needle ++ (data.drop k).drop needle.length
    ∧ k + needle.length ≤ data.length := by
  induction data generalizing k with
  | nil =>
    simp only [find_first] at h
    by_cases hnil : needle = []
    · simp [hnil] at h
      subst h
      simp [hnil]
    · simp [hnil] at h
  | cons c rest ih =>
    simp only [find_first] at h
    by_cases hpre : needle.isPrefixOf (c :: rest) = true
    · simp only [hpre, if_true, Option.some.injEq] at h
      subst h
      rw [List.isPrefixOf_iff_prefix] at hpre
      obtain ⟨t, ht⟩ := hpre
      constructor
      · simp only [List.drop_zero]
        rw [← ht]
        simp
      · rw [← ht]
        simp
    · simp only [hpre, Bool.false_eq_true, if_false] at h
      obtain ⟨j, hj, hjk⟩ : ∃ j, find_first needle rest = some j ∧ j + 1 = k := by
        cases hf : find_first needle rest with
        | none => simp [hf] at h
        | some j => exact ⟨j, rfl, by simpa [hf] using h⟩
      subst hjk
      obtain ⟨h1, h2⟩ := ih j hj
      constructor
      · simpa using h1
      · simp only [List.length_cons]
        omega

theorem find_first_of_first_occurrence (needle : List Char) (hne : needle ≠ [])
    (data : List Char) (k : Nat) (hk : occurs_at needle data k = true)
    (hfirst : ∀ j, j < k → occurs_at needle data j = false) :
    find_first needle data = some k := by
  induction data generalizing k with
  | nil =>
    simp only [occurs_at, List.drop_nil, List.isPrefixOf_iff_prefix, List.prefix_nil] at hk
    exact absurd hk hne
  | cons c rest ih =>
    cases k with
    | zero =>
      simp only [occurs_at, List.drop_zero] at hk
      simp [find_first, hk]
    | succ j =>
      have h0 : needle.isPrefixOf (c :: rest) = false := by
        have := hfirst 0 (Nat.succ_pos j)
        simpa [occurs_at] using this
      have hj : occurs_at needle rest j = true := by
        simpa [occurs_at] using hk
      have hfirst2 : ∀ i, i < j → occurs_at needle rest i = false := by
        intro i hi
        have := hfirst (i + 1) (by omega)
        simpa [occurs_at] using this
      simp only [find_first, h0, Bool.false_eq_true, if_false, ih j hj hfirst2]
      rfl

theorem find_first_of_no_occurrence (needle : List Char) (hne : needle ≠ [])
    (data : List Char) (hnone : ∀ j, occurs_at needle data j = false) :
    find_first needle data = none := by
  induction data with
  | nil => simp [find_first, hne]
  | cons c rest ih =>
    have h0 : needle.isPrefixOf (c :: rest) = false := by
      have := hnone 0
      simpa [occurs_at] using this
    have hrest : ∀ j, occurs_at needle rest j = false := by
      intro j
      have := hnone (j + 1)
      simpa [occurs_at] using this
    simp only [find_first, h0, Bool.false_eq_true, if_false, ih hrest]
    rfl

theorem crlfcrlf_no_nul : ∀ c ∈ "\r\n\r\n".toList, c ≠ NUL := by
  decide

theorem parse_exit_cases (env : Externals) (priv : GSSDPClientPrivate) (r : Received)
    (buf : List Char) (len : Nat) :
    (socket_source_cb_parse env priv r buf len).exit = Exit.emitted
    ∨ (socket_source_cb_parse env priv r buf len).exit = Exit.not_classified := by
  simp only [socket_source_cb_parse]
  split_ifs
  · exact Or.inl rfl
  · exact Or.inr rfl

theorem frame_of_none (env : Externals) (priv : GSSDPClientPrivate) (r : Received)
    (h : strstr (r.data ++ [NUL]) "\r\n\r\n".toList = none) :
    socket_source_cb_frame env priv r = ⟨priv, [], Exit.no_terminator⟩ := by
  simp only [socket_source_cb_frame, h]

theorem frame_of_some (env : Externals) (priv : GSSDPClientPrivate) (r : Received)
    (e : Nat) (h : strstr (r.data ++ [NUL]) "\r\n\r\n".toList = some e) :
    socket_source_cb_frame env priv r
      = socket_source_cb_parse env priv r (r.data ++ [NUL]) (e + 2) := by
  simp only [socket_source_cb_frame, h]

theorem frame_exit_cases (env : Externals) (priv : GSSDPClientPrivate) (r : Received) :
    (socket_source_cb_frame env priv r).exit = Exit.no_terminator
    ∨ (socket_source_cb_frame env priv r).exit = Exit.emitted
    ∨ (socket_source_cb_frame env priv r).exit = Exit.not_classified := by
  cases h : strstr (r.data ++ [NUL]) "\r\n\r\n".toList with
  | none =>
    rw [frame_of_none env priv r h]
    exact Or.inl rfl
  | some e =>
    rw [frame_of_some env priv r e h]
    exact Or.inr (parse_exit_cases env priv r _ _)

theorem cb_of_pass (env : Externals) (have_pktinfo : Bool) (priv : GSSDPClientPrivate)
    (r : Received) (hpass : interface_filter env have_pktinfo priv r = true)
    (hlen : r.data.length < BUF_SIZE) :
    socket_source_cb env have_pktinfo priv (some r) = socket_source_cb_frame env priv r := by
  have hl : ¬ r.data.length ≥ BUF_SIZE := by omega
  simp only [socket_source_cb, hpass, Bool.not_true, Bool.false_eq_true, if_false, hl]

theorem cb_of_too_long (env : Externals) (have_pktinfo : Bool) (priv : GSSDPClientPrivate)
    (r : Received) (hpass : interface_filter env have_pktinfo priv r = true)
    (hlen : r.data.length ≥ BUF_SIZE) :
    socket_source_cb env have_pktinfo priv (some r) = ⟨priv, [], Exit.too_long⟩ := by
  simp only [socket_source_cb, hpass, Bool.not_true, Bool.false_eq_true, if_false, hlen, if_true]

theorem cb_of_filtered (env : Externals) (have_pktinfo : Bool) (priv : GSSDPClientPrivate)
    (r : Received) (hpass : interface_filter env have_pktinfo priv r = false) :
    socket_source_cb env have_pktinfo priv (some r) = ⟨priv, [], Exit.filtered⟩ := by
  simp only [socket_source_cb, hpass, Bool.not_false, if_true]

theorem take_header_block (data : List Char) (k : Nat)
    (h : find_first "\r\n\r\n".toList data = some k) :
    (data ++ [NUL]).take (k + 2) = data.take k ++ "\r\n".toList := by
  obtain ⟨h1, h2⟩ := find_first_spec _ data k h
  have hlen : k + 2 ≤ data.length := by
    have : ("\r\n\r\n".toList).length = 4 := by decide
    omega
  rw [List.take_append_of_le_length hlen]
  have hsplit : data.take (k + 2) = data.take k ++ (data.drop k).take 2 := by
    rw [List.take_add]
  rw [hsplit, h1]
  rfl

theorem tolower_toNat_ne (c1 c2 : Char) (h : c1 ≠ c2) :
    (c1.toNat : Int) - (c2.toNat : Int) ≠ 0 := by
  intro h0
  apply h
  apply Char.ext
  apply UInt32.ext
  have : c1.toNat = c2.toNat := by omega
  exact this

theorem ascii_strncasecmp_loop_eq_zero_iff (p : List Char) (hp : ∀ c ∈ p, c.toNat ≠ 0)
    (m : List Char) :
    ascii_strncasecmp_loop m p p.length = 0 ↔ begins_with_nocase p m = true := by
  induction p generalizing m with
  | nil => cases m <;> simp [ascii_strncasecmp_loop, begins_with_nocase]
  | cons c2 p2 ih =>
    have hc2 : c2.toNat ≠ 0 := hp c2 (by simp)
    have ih2 := ih (fun x hx => hp x (by simp [hx]))
    cases m with
    | nil =>
      simp only [ascii_strncasecmp_loop, List.length_cons, begins_with_nocase]
      constructor
      · intro h
        omega
      · intro h
        simp at h
    | cons c1 m2 =>
      simp only [ascii_strncasecmp_loop, List.length_cons]
      by_cases hl : g_ascii_tolower c1 = g_ascii_tolower c2
      · simp only [hl, ne_eq, not_true_eq_false, if_false]
        rw [ih2 m2]
        simp [begins_with_nocase, hl]
      · simp only [ne_eq, hl, not_false_eq_true, if_true]
        constructor
        · intro h
          exact absurd h (tolower_toNat_ne _ _ hl)
        · intro h
          simp [begins_with_nocase, hl] at h

theorem parse_http_request_accepted (env : Externals) (buf : List Char) (len : Nat)
    (hdrs : SoupMessageHeaders) (m : List Char)
    (hparse : env.soup_headers_parse_request (buf.take len)
        = ⟨SOUP_STATUS_OK, hdrs, some m, some "*".toList, SoupHTTPVersion.SOUP_HTTP_1_1⟩) :
    parse_http_request env buf len (-1)
      = (true, some hdrs,
          if begins_with_nocase SSDP_SEARCH_METHOD m = true then _GSSDP_DISCOVERY_REQUEST
          else if begins_with_nocase GENA_NOTIFY_METHOD m = true then _GSSDP_ANNOUNCEMENT
          else -1) := by
  have hs : ∀ c ∈ SSDP_SEARCH_METHOD, c.toNat ≠ 0 := by decide
  have hg : ∀ c ∈ GENA_NOTIFY_METHOD, c.toNat ≠ 0 := by decide
  have hstar : ascii_strncasecmp_loop "*".toList "*".toList 1 = 0 := by decide
  have e1 := ascii_strncasecmp_loop_eq_zero_iff SSDP_SEARCH_METHOD hs m
  have e2 := ascii_strncasecmp_loop_eq_zero_iff GENA_NOTIFY_METHOD hg m
  simp only [parse_http_request, hparse, g_ascii_strncasecmp, hstar, Option.isSome_some,
    and_self, if_true, strlen, e1, e2]

/-! ## Receive path: claims C7 to C10 -/

/-- C7: in the pktinfo receive path, when the pktinfo control message of a
datagram (the first one among its control messages) has an interface index
that is neither the device index nor 1, or a local address that is not the
host address of the device, `socket_source_cb` emits no signal and leaves
the whole client state, the user-agent cache included, unchanged, for
every payload and every library behaviour; when the index is the device
index or 1 and the local address is the host address, the datagram passes
the interface filter. -/
theorem C7_pktinfo_interface_filter (env : Externals) (priv : GSSDPClientPrivate)
    (r : Received) (ifindex : Int) (local_addr : GInetAddress)
    (hmsg : r.messages.find? GSSDP_IS_PKTINFO_MESSAGE
              = some (GSocketControlMessage.pktinfo ifindex local_addr)) :
    ((¬ (ifindex = priv.device.index ∨ ifindex = 1)
        ∨ priv.device.host_addr ≠ some local_addr) →
      (socket_source_cb env true priv (some r)).signals = []
      ∧ (socket_source_cb env true priv (some r)).priv = priv
      ∧ (socket_source_cb env true priv (some r)).priv.user_agent_cache = priv.user_agent_cache
      ∧ (socket_source_cb env true priv (some r)).exit = Exit.filtered)
    ∧ (((ifindex = priv.device.index ∨ ifindex = 1)
        ∧ priv.device.host_addr = some local_addr) →
      interface_filter env true priv r = true
      ∧ (socket_source_cb env true priv (some r)).exit ≠ Exit.filtered) := by
  have hf := pktinfo_filter_first priv r.messages ifindex local_addr hmsg
  constructor
  · intro hbad
    have hfalse : interface_filter env true priv r = false := by
      simp only [interface_filter, if_true, hf, LOOPBACK_IFINDEX]
      rw [decide_eq_false_iff_not, not_and_or]
      exact hbad
    rw [cb_of_filtered env true priv r hfalse]
    exact ⟨rfl, rfl, rfl, rfl⟩
  · intro hgood
    have htrue : interface_filter env true priv r = true := by
      simp only [interface_filter, if_true, hf, LOOPBACK_IFINDEX]
      exact decide_eq_true hgood
    refine ⟨htrue, ?_⟩
    by_cases hlen : r.data.length < BUF_SIZE
    · rw [cb_of_pass env true priv r htrue hlen]
      rcases frame_exit_cases env priv r with h | h | h <;> simp [h]
    · rw [cb_of_too_long env true priv r htrue (by omega)]
      simp

/-- Witness of C7: the M-SEARCH datagram arriving with interface index 7
and the host address as local address (device index 2) is dropped with no
signal. -/
theorem C7_pktinfo_interface_filter_witness :
    (sample_received sample_msearch 7 ⟨2, [192, 168, 1, 10]⟩).messages.find?
        GSSDP_IS_PKTINFO_MESSAGE
      = some (GSocketControlMessage.pktinfo 7 ⟨2, [192, 168, 1, 10]⟩)
    ∧ (socket_source_cb (sample_env sample_notify_request sample_bad_response) true sample_priv
        (some (sample_received sample_msearch 7 ⟨2, [192, 168, 1, 10]⟩))).signals = [] :=
  ⟨by decide,
   ((C7_pktinfo_interface_filter (sample_env sample_notify_request sample_bad_response)
      sample_priv (sample_received sample_msearch 7 ⟨2, [192, 168, 1, 10]⟩) 7
      ⟨2, [192, 168, 1, 10]⟩ (by decide)).1 (Or.inl (by decide))).1⟩

/-- C8: for a datagram that passed the interface filter, `socket_source_cb`
stops at the length guard exactly when the received byte count is at least
65536, and then emits nothing and changes nothing; with fewer bytes it goes
on to framing; with exactly 65535 bytes the guard is passed and the NUL is
stored at index 65535, the last place of the 65536-byte buffer. -/
theorem C8_length_guard (env : Externals) (have_pktinfo : Bool) (priv : GSSDPClientPrivate)
    (r : Received) (hpass : interface_filter env have_pktinfo priv r = true) :
    ((socket_source_cb env have_pktinfo priv (some r)).exit = Exit.too_long
        ↔ r.data.length ≥ 65536)
    ∧ (r.data.length ≥ 65536 →
        socket_source_cb env have_pktinfo priv (some r) = ⟨priv, [], Exit.too_long⟩)
    ∧ (r.data.length < 65536 →
        socket_source_cb env have_pktinfo priv (some r) = socket_source_cb_frame env priv r)
    ∧ (r.data.length = 65535 →
        socket_source_cb env have_pktinfo priv (some r) = socket_source_cb_frame env priv r
        ∧ (r.data ++ [NUL]).get? 65535 = some NUL
        ∧ (r.data ++ [NUL]).length = BUF_SIZE) := by
  have hlong : r.data.length ≥ 65536 →
      socket_source_cb env have_pktinfo priv (some r) = ⟨priv, [], Exit.too_long⟩ :=
    fun h => cb_of_too_long env have_pktinfo priv r hpass h
  have hshort : r.data.length < 65536 →
      socket_source_cb env have_pktinfo priv (some r) = socket_source_cb_frame env priv r :=
    fun h => cb_of_pass env have_pktinfo priv r hpass h
  refine ⟨?_, hlong, hshort, ?_⟩
  · constructor
    · intro hexit
      by_contra hlt
      rw [hshort (by omega)] at hexit
      rcases frame_exit_cases env priv r with h | h | h <;> rw [h] at hexit <;> cases hexit
    · intro h
      rw [hlong h]
  · intro h
    refine ⟨hshort (by omega), ?_, ?_⟩
    · rw [← h]
      simp
    · simp [h, BUF_SIZE]

/-- Witness of C8: the M-SEARCH datagram with matching pktinfo passes the
filter, is shorter than the buffer, and goes on to framing. -/
theorem C8_length_guard_witness :
    interface_filter (sample_env sample_bad_request sample_bad_response) true sample_priv
        (sample_received sample_msearch 2 ⟨2, [192, 168, 1, 10]⟩) = true
    ∧ (socket_source_cb (sample_env sample_bad_request sample_bad_response) true sample_priv
          (some (sample_received sample_msearch 2 ⟨2, [192, 168, 1, 10]⟩))
        = socket_source_cb_frame (sample_env sample_bad_request sample_bad_response) sample_priv
            (sample_received sample_msearch 2 ⟨2, [192, 168, 1, 10]⟩)) :=
  ⟨by decide,
   (C8_length_guard (sample_env sample_bad_request sample_bad_response) true sample_priv
      (sample_received sample_msearch 2 ⟨2, [192, 168, 1, 10]⟩) (by decide)).2.2.1
      (by decide)⟩

/-- C9 as stated fails: the datagram `NOTIFY * HTTP/1.1`, `X: a`, a zero
byte, `b`, blank line passes the filter and the length guard, its first
CRLF CRLF is at offset 25, yet `strstr` stops at the zero byte: the
callback ends with no terminator found and no signal, where a header
length of 27 handed to the parsers would have produced a signal. -/
theorem C9_counterexample :
    interface_filter (sample_env sample_notify_request sample_bad_response) true sample_priv
        (sample_received nul_before_terminator 2 ⟨2, [192, 168, 1, 10]⟩) = true
    ∧ nul_before_terminator.length < BUF_SIZE
    ∧ occurs_at "\r\n\r\n".toList nul_before_terminator 25 = true
    ∧ (∀ j, j < 25 → occurs_at "\r\n\r\n".toList nul_before_terminator j = false)
    ∧ socket_source_cb (sample_env sample_notify_request sample_bad_response) true sample_priv
          (some (sample_received nul_before_terminator 2 ⟨2, [192, 168, 1, 10]⟩))
        = ⟨sample_priv, [], Exit.no_terminator⟩
    ∧ (socket_source_cb_parse (sample_env sample_notify_request sample_bad_response) sample_priv
          (sample_received nul_before_terminator 2 ⟨2, [192, 168, 1, 10]⟩)
          (nul_before_terminator ++ [NUL]) (25 + 2)).exit = Exit.emitted := by
  refine ⟨by decide, by decide, by decide, by decide, by decide, by decide⟩

/-- C9 (amended): for a datagram that reaches framing, if its bytes contain
no CRLF CRLF it is dropped with no signal and no change of state; if they
do and no zero byte stands before the first CRLF CRLF, at offset `k`, the
parsers are run with header length `k + 2`, so the header block is the
bytes before the first CRLF CRLF followed by one CRLF. -/
theorem C9_framing (env : Externals) (have_pktinfo : Bool) (priv : GSSDPClientPrivate)
    (r : Received) (hpass : interface_filter env have_pktinfo priv r = true)
    (hlen : r.data.length < BUF_SIZE) :
    ((∀ j, occurs_at "\r\n\r\n".toList r.data j = false) →
        socket_source_cb env have_pktinfo priv (some r) = ⟨priv, [], Exit.no_terminator⟩)
    ∧ (∀ k, occurs_at "\r\n\r\n".toList r.data k = true →
        (∀ j, j < k → occurs_at "\r\n\r\n".toList r.data j = false) →
        (∀ c ∈ r.data.take k, c ≠ NUL) →
        socket_source_cb env have_pktinfo priv (some r)
            = socket_source_cb_parse env priv r (r.data ++ [NUL]) (k + 2)
        ∧ (r.data ++ [NUL]).take (k + 2) = r.data.take k ++ "\r\n".toList) := by
  have hne : "\r\n\r\n".toList ≠ [] := by decide
  rw [cb_of_pass env have_pktinfo priv r hpass hlen]
  constructor
  · intro hnone
    apply frame_of_none
    have h1 := find_first_of_no_occurrence _ hne r.data hnone
    unfold strstr
    rw [c_str_append_nul]
    exact find_first_none_of_prefix_of _ hne r.data _ (c_str_is_prefix_of r.data) h1
  · intro k hk hfirst hz
    have h1 := find_first_of_first_occurrence _ hne r.data k hk hfirst
    refine ⟨?_, take_header_block r.data k h1⟩
    apply frame_of_some
    unfold strstr
    rw [c_str_append_nul]
    exact find_first_c_str _ crlfcrlf_no_nul r.data k h1 hz

/-- Witness of C9: the M-SEARCH datagram (65 bytes, blank line at offset
61) is handed to the parsers with header length 63. -/
theorem C9_framing_witness :
    interface_filter (sample_env sample_bad_request sample_bad_response) true sample_priv
        (sample_received sample_msearch 2 ⟨2, [192, 168, 1, 10]⟩) = true
    ∧ sample_msearch.length < BUF_SIZE
    ∧ occurs_at "\r\n\r\n".toList sample_msearch 61 = true
    ∧ socket_source_cb (sample_env sample_bad_request sample_bad_response) true sample_priv
          (some (sample_received sample_msearch 2 ⟨2, [192, 168, 1, 10]⟩))
        = socket_source_cb_parse (sample_env sample_bad_request sample_bad_response) sample_priv
            (sample_received sample_msearch 2 ⟨2, [192, 168, 1, 10]⟩)
            (sample_msearch ++ [NUL]) (61 + 2) :=
  ⟨by decide, by decide, by decide,
   ((C9_framing (sample_env sample_bad_request sample_bad_response) true sample_priv
      (sample_received sample_msearch 2 ⟨2, [192, 168, 1, 10]⟩) (by decide) (by decide)).2
      61 (by decide) (by decide) (by decide)).1⟩

/-- C10 as stated fails: a request that the parser accepts with version
1.1, target `*` and the method `NOTIFYX`, which is neither M-SEARCH nor
NOTIFY, is not dropped: the callback emits one signal of class
Announcement. -/
theorem C10_counterexample :
    sample_notifyx_request.status = SOUP_STATUS_OK
    ∧ sample_notifyx_request.version = SoupHTTPVersion.SOUP_HTTP_1_1
    ∧ sample_notifyx_request.path = some "*".toList
    ∧ sample_notifyx_request.req_method = some "NOTIFYX".toList
    ∧ "NOTIFYX".toList ≠ "M-SEARCH".toList
    ∧ "NOTIFYX".toList ≠ "NOTIFY".toList
    ∧ (socket_source_cb (sample_env sample_notifyx_request sample_bad_response) true sample_priv
          (some (sample_received sample_notifyx 2 ⟨2, [192, 168, 1, 10]⟩))).signals
        = [⟨"192.168.1.42".toList, 51000, _GSSDP_ANNOUNCEMENT,
            some [("HOST".toList, "239.255.255.250:1900".toList)]⟩] := by
  refine ⟨by decide, by decide, by decide, by decide, by decide, by decide, by decide⟩

/-- C10 (amended): for a header block that the request parser accepts with
version 1.1 and target `*`, the class is DiscoveryRequest when the method
is M-SEARCH and Announcement when it is NOTIFY, with one signal carrying
the parsed headers; when the method begins with neither M-SEARCH nor
NOTIFY (ASCII case ignored) nothing is emitted, the state is unchanged and
the response parser has no influence. -/
theorem C10_request_classification (env : Externals) (priv : GSSDPClientPrivate)
    (r : Received) (buf : List Char) (len : Nat) (hdrs : SoupMessageHeaders) (m : List Char)
    (hparse : env.soup_headers_parse_request (buf.take len)
        = ⟨SOUP_STATUS_OK, hdrs, some m, some "*".toList, SoupHTTPVersion.SOUP_HTTP_1_1⟩) :
    (m = "M-SEARCH".toList →
        parse_http_request env buf len (-1) = (true, some hdrs, _GSSDP_DISCOVERY_REQUEST)
        ∧ (socket_source_cb_parse env priv r buf len).signals
            = [⟨env.g_inet_address_to_string r.address.address, r.address.port,
                _GSSDP_DISCOVERY_REQUEST, some hdrs⟩])
    ∧ (m = "NOTIFY".toList →
        parse_http_request env buf len (-1) = (true, some hdrs, _GSSDP_ANNOUNCEMENT)
        ∧ (socket_source_cb_parse env priv r buf len).signals
            = [⟨env.g_inet_address_to_string r.address.address, r.address.port,
                _GSSDP_ANNOUNCEMENT, some hdrs⟩])
    ∧ (begins_with_nocase "M-SEARCH".toList m = false →
        begins_with_nocase "NOTIFY".toList m = false →
        parse_http_request env buf len (-1) = (true, some hdrs, -1)
        ∧ socket_source_cb_parse env priv r buf len = ⟨priv, [], Exit.not_classified⟩) := by
  have hacc := parse_http_request_accepted env buf len hdrs m hparse
  refine ⟨?_, ?_, ?_⟩
  · intro hm
    subst hm
    have hb : begins_with_nocase SSDP_SEARCH_METHOD "M-SEARCH".toList = true := by decide
    rw [hb] at hacc
    simp only [if_true] at hacc
    refine ⟨hacc, ?_⟩
    simp only [socket_source_cb_parse, hacc]
    simp [_GSSDP_DISCOVERY_REQUEST]
  · intro hm
    subst hm
    have hb : begins_with_nocase SSDP_SEARCH_METHOD "NOTIFY".toList = false := by decide
    have hb2 : begins_with_nocase GENA_NOTIFY_METHOD "NOTIFY".toList = true := by decide
    rw [hb, hb2] at hacc
    simp only [Bool.false_eq_true, if_false, if_true] at hacc
    refine ⟨hacc, ?_⟩
    simp only [socket_source_cb_parse, hacc]
    simp [_GSSDP_ANNOUNCEMENT]
  · intro h1 h2
    have h1b : begins_with_nocase SSDP_SEARCH_METHOD m = false := h1
    have h2b : begins_with_nocase GENA_NOTIFY_METHOD m = false := h2
    rw [h1b, h2b] at hacc
    simp only [Bool.false_eq_true, if_false] at hacc
    refine ⟨hacc, ?_⟩
    simp only [socket_source_cb_parse, hacc]
    simp

/-- Witness of C10: with a parser that accepts a NOTIFY for `*` in version
1.1, the parse step emits one signal of class Announcement. -/
theorem C10_request_classification_witness :
    (sample_env sample_notify_request sample_bad_response).soup_headers_parse_request
        ((sample_msearch ++ [NUL]).take 63)
      = ⟨SOUP_STATUS_OK, [("X".toList, "a".toList)], some "NOTIFY".toList, some "*".toList,
          SoupHTTPVersion.SOUP_HTTP_1_1⟩
    ∧ (socket_source_cb_parse (sample_env sample_notify_request sample_bad_response) sample_priv
          (sample_received sample_msearch 2 ⟨2, [192, 168, 1, 10]⟩)
          (sample_msearch ++ [NUL]) 63).signals
        = [⟨"192.168.1.42".toList, 51000, _GSSDP_ANNOUNCEMENT,
            some [("X".toList, "a".toList)]⟩] :=
  ⟨rfl,
   ((C10_request_classification (sample_env sample_notify_request sample_bad_response)
      sample_priv (sample_received sample_msearch 2 ⟨2, [192, 168, 1, 10]⟩)
      (sample_msearch ++ [NUL]) 63 [("X".toList, "a".toList)] "NOTIFY".toList rfl).2.1 rfl).2⟩

/-! ## Lemmas on parsing -/

theorem cb_parse_eq (env : Externals) (priv : GSSDPClientPrivate) (r : Received)
    (buf : List Char) (len : Nat) :
    socket_source_cb_parse env priv r buf len
      = if (parse_message env buf len).2 ≥ 0 then
          ⟨(match (match (parse_message env buf len).1 with
                    | none => none
                    | some h => agent_of env h) with
             | some a =>
               gssdp_client_add_cache_entry env priv
                 (some (env.g_inet_address_to_string r.address.address)) (some a)
             | none => priv),
           [⟨env.g_inet_address_to_string r.address.address, r.address.port,
             (parse_message env buf len).2, (parse_message env buf len).1⟩],
           Exit.emitted⟩
        else ⟨priv, [], Exit.not_classified⟩ := by
  rfl

theorem parse_http_request_cases (env : Externals) (buf : List Char) (len : Nat) :
    (∃ hdrs type, parse_http_request env buf len (-1) = (true, some hdrs, type))
    ∨ parse_http_request env buf len (-1) = (false, none, -1) := by
  by_cases c : (env.soup_headers_parse_request (buf.take len)).status = SOUP_STATUS_OK
      ∧ (env.soup_headers_parse_request (buf.take len)).version = SoupHTTPVersion.SOUP_HTTP_1_1
      ∧ ((env.soup_headers_parse_request (buf.take len)).path.isSome
        ∧ g_ascii_strncasecmp (env.soup_headers_parse_request (buf.take len)).path
            (some "*".toList) 1 = 0)
  · left
    refine ⟨(env.soup_headers_parse_request (buf.take len)).headers,
      (parse_http_request env buf len (-1)).2.2, ?_⟩
    simp only [parse_http_request, c, and_self, if_true]
  · right
    simp only [parse_http_request, c, if_false]

theorem parse_http_request_false (env : Externals) (buf : List Char) (len : Nat)
    (h : (parse_http_request env buf len (-1)).1 = false) :
    parse_http_request env buf len (-1) = (false, none, -1) := by
  rcases parse_http_request_cases env buf len with ⟨hdrs, type, hc⟩ | hc
  · rw [hc] at h
    simp at h
  · exact hc

theorem parse_http_response_eq (env : Externals) (buf : List Char) (len : Nat) (type : Int) :
    parse_http_response env buf len type
      = if (env.soup_headers_parse_response (buf.take len)).ok = true
            ∧ (env.soup_headers_parse_response (buf.take len)).status_code = 200 then
          (true, some (env.soup_headers_parse_response (buf.take len)).headers,
            _GSSDP_DISCOVERY_RESPONSE)
        else (false, none, type) := by
  rfl

theorem parse_message_of_request_false (env : Externals) (buf : List Char) (len : Nat)
    (h : (parse_http_request env buf len (-1)).1 = false) :
    parse_message env buf len
      = ((parse_http_response env buf len (-1)).2.1, (parse_http_response env buf len (-1)).2.2) := by
  simp only [parse_message, parse_http_request_false env buf len h]

theorem parse_message_classified (env : Externals) (buf : List Char) (len : Nat)
    (h : (parse_message env buf len).2 ≥ 0) :
    ∃ hdrs, (parse_message env buf len).1 = some hdrs := by
  rcases parse_http_request_cases env buf len with ⟨hdrs, type, hc⟩ | hc
  · refine ⟨hdrs, ?_⟩
    simp only [parse_message, hc]
  · have hreq : (parse_http_request env buf len (-1)).1 = false := by rw [hc]
    rw [parse_message_of_request_false env buf len hreq] at h ⊢
    rw [parse_http_response_eq] at h ⊢
    split_ifs at h ⊢
    · exact ⟨_, rfl⟩
    · simp at h

theorem tolower_eq_star (c : Char) (h : g_ascii_tolower c = '*') : c = '*' := by
  have key : ∀ n, 65 ≤ n → n ≤ 90 → Char.ofNat (n + 32) ≠ '*' := by
    intro n h1 h2
    interval_cases n <;> decide
  unfold g_ascii_tolower at h
  split_ifs at h with hc
  · exact absurd h (key c.toNat hc.1 hc.2)
  · exact h

theorem star_check_fails (p : List Char) (hp : ∀ rest, p ≠ '*' :: rest) :
    ascii_strncasecmp_loop p "*".toList 1 ≠ 0 := by
  intro h0
  have hs : ∀ c ∈ "*".toList, c.toNat ≠ 0 := by decide
  have hb := (ascii_strncasecmp_loop_eq_zero_iff "*".toList hs p).mp h0
  cases p with
  | nil => simp [begins_with_nocase] at hb
  | cons c rest =>
    have hc : g_ascii_tolower c = '*' := by
      simp only [begins_with_nocase, String.toList, List.length_cons, List.length_nil,
        List.take_succ_cons, List.take_zero, List.map_cons, List.map_nil, beq_iff_eq,
        List.cons.injEq, and_true] at hb
      rw [hb]
      decide
    exact hp rest (by rw [tolower_eq_star c hc])

theorem parse_http_request_rejected (env : Externals) (buf : List Char) (len : Nat)
    (hbad : (env.soup_headers_parse_request (buf.take len)).version
              ≠ SoupHTTPVersion.SOUP_HTTP_1_1
            ∨ ∀ rest, (env.soup_headers_parse_request (buf.take len)).path
                ≠ some ('*' :: rest)) :
    parse_http_request env buf len (-1) = (false, none, -1) := by
  have c : ¬ ((env.soup_headers_parse_request (buf.take len)).status = SOUP_STATUS_OK
      ∧ (env.soup_headers_parse_request (buf.take len)).version = SoupHTTPVersion.SOUP_HTTP_1_1
      ∧ ((env.soup_headers_parse_request (buf.take len)).path.isSome
        ∧ g_ascii_strncasecmp (env.soup_headers_parse_request (buf.take len)).path
            (some "*".toList) 1 = 0)) := by
    rintro ⟨_, hv, hsome, hstar⟩
    rcases hbad with hbad | hbad
    · exact hbad hv
    · cases hpath : (env.soup_headers_parse_request (buf.take len)).path with
      | none => simp [hpath] at hsome
      | some p =>
        rw [hpath] at hstar
        have hp : ∀ rest, p ≠ '*' :: rest := by
          intro rest hr
          apply hbad rest
          rw [hpath, hr]
        exact star_check_fails p hp hstar
  simp only [parse_http_request, c, if_false]

theorem signals_of_request_false (env : Externals) (priv : GSSDPClientPrivate) (r : Received)
    (buf : List Char) (len : Nat)
    (h : (parse_http_request env buf len (-1)).1 = false) :
    ((env.soup_headers_parse_response (buf.take len)).ok = true
        ∧ (env.soup_headers_parse_response (buf.take len)).status_code = 200 →
      parse_message env buf len
          = (some (env.soup_headers_parse_response (buf.take len)).headers,
             _GSSDP_DISCOVERY_RESPONSE)
      ∧ (socket_source_cb_parse env priv r buf len).signals
          = [⟨env.g_inet_address_to_string r.address.address, r.address.port,
              _GSSDP_DISCOVERY_RESPONSE,
              some (env.soup_headers_parse_response (buf.take len)).headers⟩])
    ∧ (¬ ((env.soup_headers_parse_response (buf.take len)).ok = true
        ∧ (env.soup_headers_parse_response (buf.take len)).status_code = 200) →
      parse_http_response env buf len (-1) = (false, none, -1)
      ∧ parse_message env buf len = (none, -1)
      ∧ socket_source_cb_parse env priv r buf len = ⟨priv, [], Exit.not_classified⟩) := by
  have hpm := parse_message_of_request_false env buf len h
  constructor
  · intro hok
    have hresp : parse_http_response env buf len (-1)
        = (true, some (env.soup_headers_parse_response (buf.take len)).headers,
            _GSSDP_DISCOVERY_RESPONSE) := by
      rw [parse_http_response_eq, if_pos hok]
    rw [hresp] at hpm
    refine ⟨hpm, ?_⟩
    rw [cb_parse_eq, hpm]
    simp [_GSSDP_DISCOVERY_RESPONSE]
  · intro hno
    have hresp : parse_http_response env buf len (-1) = (false, none, -1) := by
      rw [parse_http_response_eq, if_neg hno]
    rw [hresp] at hpm
    refine ⟨hresp, hpm, ?_⟩
    rw [cb_parse_eq, hpm]
    simp

/-! ## Receive path: claims C11 to C14 -/

/-- C11 as stated fails: a request that the parser accepts with method
M-SEARCH, version 1.1 and the target `*x`, which is not the string `*`, is
not rejected: the callback emits a signal of class DiscoveryRequest. -/
theorem C11_counterexample :
    sample_star_x_request.status = SOUP_STATUS_OK
    ∧ sample_star_x_request.version = SoupHTTPVersion.SOUP_HTTP_1_1
    ∧ sample_star_x_request.path = some "*x".toList
    ∧ "*x".toList ≠ "*".toList
    ∧ (parse_http_request (sample_env sample_star_x_request sample_bad_response)
          (sample_star_x ++ [NUL]) 36 (-1)).1 = true
    ∧ (socket_source_cb (sample_env sample_star_x_request sample_bad_response) true sample_priv
          (some (sample_received sample_star_x 2 ⟨2, [192, 168, 1, 10]⟩))).signals
        = [⟨"192.168.1.42".toList, 51000, _GSSDP_DISCOVERY_REQUEST,
            some [("ST".toList, "ssdp:all".toList)]⟩] := by
  refine ⟨by decide, by decide, by decide, by decide, by decide, by decide⟩

/-- C11 (amended): when the request parser reports a version other than
1.1, or a request-target that does not begin with `*` (or none), the
request form is rejected and the callback emits no signal of class
DiscoveryRequest or Announcement. -/
theorem C11_request_rejected (env : Externals) (priv : GSSDPClientPrivate) (r : Received)
    (buf : List Char) (len : Nat)
    (hbad : (env.soup_headers_parse_request (buf.take len)).version
              ≠ SoupHTTPVersion.SOUP_HTTP_1_1
            ∨ ∀ rest, (env.soup_headers_parse_request (buf.take len)).path
                ≠ some ('*' :: rest)) :
    parse_http_request env buf len (-1) = (false, none, -1)
    ∧ ∀ s ∈ (socket_source_cb_parse env priv r buf len).signals,
        s.type ≠ _GSSDP_DISCOVERY_REQUEST ∧ s.type ≠ _GSSDP_ANNOUNCEMENT := by
  have hrej := parse_http_request_rejected env buf len hbad
  refine ⟨hrej, ?_⟩
  have hfalse : (parse_http_request env buf len (-1)).1 = false := by rw [hrej]
  obtain ⟨hyes, hno⟩ := signals_of_request_false env priv r buf len hfalse
  intro s hs
  by_cases hok : (env.soup_headers_parse_response (buf.take len)).ok = true
      ∧ (env.soup_headers_parse_response (buf.take len)).status_code = 200
  · rw [(hyes hok).2] at hs
    simp only [List.mem_singleton] at hs
    subst hs
    have h1 : _GSSDP_DISCOVERY_RESPONSE ≠ _GSSDP_DISCOVERY_REQUEST := by decide
    have h2 : _GSSDP_DISCOVERY_RESPONSE ≠ _GSSDP_ANNOUNCEMENT := by decide
    exact ⟨h1, h2⟩
  · rw [(hno hok).2.2] at hs
    simp at hs

/-- Witness of C11: an M-SEARCH for `*` in version 1.0 is rejected by the
request form. -/
theorem C11_request_rejected_witness :
    (sample_http10_request.version ≠ SoupHTTPVersion.SOUP_HTTP_1_1)
    ∧ parse_http_request (sample_env sample_http10_request sample_bad_response)
        (sample_msearch ++ [NUL]) 63 (-1) = (false, none, -1) :=
  ⟨by decide,
   (C11_request_rejected (sample_env sample_http10_request sample_bad_response) sample_priv
      (sample_received sample_msearch 2 ⟨2, [192, 168, 1, 10]⟩) (sample_msearch ++ [NUL]) 63
      (Or.inl (by decide))).1⟩

/-- C12: when the request form of a framed datagram fails, the response
form decides: the class is DiscoveryResponse, with one signal carrying the
response headers, exactly when the response parser succeeds with status
200; with another status or a failed parse no signal is emitted, no headers
are kept and the state is unchanged. -/
theorem C12_response_form (env : Externals) (priv : GSSDPClientPrivate) (r : Received)
    (buf : List Char) (len : Nat)
    (hreq : (parse_http_request env buf len (-1)).1 = false) :
    ((env.soup_headers_parse_response (buf.take len)).ok = true
        ∧ (env.soup_headers_parse_response (buf.take len)).status_code = 200 →
      parse_message env buf len
          = (some (env.soup_headers_parse_response (buf.take len)).headers,
             _GSSDP_DISCOVERY_RESPONSE)
      ∧ (socket_source_cb_parse env priv r buf len).signals
          = [⟨env.g_inet_address_to_string r.address.address, r.address.port,
              _GSSDP_DISCOVERY_RESPONSE,
              some (env.soup_headers_parse_response (buf.take len)).headers⟩])
    ∧ (¬ ((env.soup_headers_parse_response (buf.take len)).ok = true
        ∧ (env.soup_headers_parse_response (buf.take len)).status_code = 200) →
      parse_http_response env buf len (-1) = (false, none, -1)
      ∧ parse_message env buf len = (none, -1)
      ∧ socket_source_cb_parse env priv r buf len = ⟨priv, [], Exit.not_classified⟩)
    ∧ ((∃ s ∈ (socket_source_cb_parse env priv r buf len).signals,
          s.type = _GSSDP_DISCOVERY_RESPONSE)
        ↔ ((env.soup_headers_parse_response (buf.take len)).ok = true
          ∧ (env.soup_headers_parse_response (buf.take len)).status_code = 200)) := by
  obtain ⟨hyes, hno⟩ := signals_of_request_false env priv r buf len hreq
  refine ⟨hyes, hno, ?_⟩
  constructor
  · rintro ⟨s, hs, _⟩
    by_contra hok
    rw [(hno hok).2.2] at hs
    simp at hs
  · intro hok
    rw [(hyes hok).2]
    exact ⟨_, List.mem_singleton.mpr rfl, rfl⟩

/-- Witness of C12: the response datagram of the specification, with a
failing request parse and a response parse of status 200, gives one signal
of class DiscoveryResponse. -/
theorem C12_response_form_witness :
    (parse_http_request (sample_env sample_bad_request sample_ok_response)
        (sample_response ++ [NUL]) 38 (-1)).1 = false
    ∧ (socket_source_cb_parse (sample_env sample_bad_request sample_ok_response) sample_priv
          (sample_received sample_response 2 ⟨2, [192, 168, 1, 10]⟩)
          (sample_response ++ [NUL]) 38).signals
        = [⟨"192.168.1.42".toList, 51000, _GSSDP_DISCOVERY_RESPONSE,
            some [("ST".toList, "upnp:rootdevice".toList)]⟩] :=
  ⟨by decide,
   ((C12_response_form (sample_env sample_bad_request sample_ok_response) sample_priv
      (sample_received sample_response 2 ⟨2, [192, 168, 1, 10]⟩)
      (sample_response ++ [NUL]) 38 (by decide)).1 ⟨rfl, rfl⟩).2⟩

/-- C13: `socket_source_cb` emits at most one signal per run; it emits one
exactly when a datagram was received, passed the interface filter and the
length guard, has a header terminator and was classified (`type` is not
negative after parsing); the signal then carries the text of the peer
address, the peer port, and the class and headers of the parse. -/
theorem C13_one_signal_per_datagram (env : Externals) (have_pktinfo : Bool)
    (priv : GSSDPClientPrivate) (received : Option Received) :
    (socket_source_cb env have_pktinfo priv received).signals.length ≤ 1
    ∧ ((socket_source_cb env have_pktinfo priv received).signals ≠ [] ↔
        ∃ r e, received = some r
          ∧ interface_filter env have_pktinfo priv r = true
          ∧ r.data.length < BUF_SIZE
          ∧ strstr (r.data ++ [NUL]) "\r\n\r\n".toList = some e
          ∧ (parse_message env (r.data ++ [NUL]) (e + 2)).2 ≥ 0)
    ∧ (∀ r e, received = some r →
        interface_filter env have_pktinfo priv r = true →
        r.data.length < BUF_SIZE →
        strstr (r.data ++ [NUL]) "\r\n\r\n".toList = some e →
        (parse_message env (r.data ++ [NUL]) (e + 2)).2 ≥ 0 →
        (socket_source_cb env have_pktinfo priv received).signals
          = [⟨env.g_inet_address_to_string r.address.address, r.address.port,
              (parse_message env (r.data ++ [NUL]) (e + 2)).2,
              (parse_message env (r.data ++ [NUL]) (e + 2)).1⟩]) := by
  have hemit : ∀ r e, received = some r →
      interface_filter env have_pktinfo priv r = true →
      r.data.length < BUF_SIZE →
      strstr (r.data ++ [NUL]) "\r\n\r\n".toList = some e →
      (parse_message env (r.data ++ [NUL]) (e + 2)).2 ≥ 0 →
      (socket_source_cb env have_pktinfo priv received).signals
        = [⟨env.g_inet_address_to_string r.address.address, r.address.port,
            (parse_message env (r.data ++ [NUL]) (e + 2)).2,
            (parse_message env (r.data ++ [NUL]) (e + 2)).1⟩] := by
    intro r e hr hpass hlen hstr hcls
    subst hr
    rw [cb_of_pass env have_pktinfo priv r hpass hlen, frame_of_some env priv r e hstr,
      cb_parse_eq, if_pos hcls]
  have hdrop : (¬ ∃ r e, received = some r
        ∧ interface_filter env have_pktinfo priv r = true
        ∧ r.data.length < BUF_SIZE
        ∧ strstr (r.data ++ [NUL]) "\r\n\r\n".toList = some e
        ∧ (parse_message env (r.data ++ [NUL]) (e + 2)).2 ≥ 0) →
      (socket_source_cb env have_pktinfo priv received).signals = [] := by
    intro hnot
    cases received with
    | none => rfl
    | some r =>
      by_cases hpass : interface_filter env have_pktinfo priv r = true
      · by_cases hlen : r.data.length < BUF_SIZE
        · rw [cb_of_pass env have_pktinfo priv r hpass hlen]
          cases hstr : strstr (r.data ++ [NUL]) "\r\n\r\n".toList with
          | none => rw [frame_of_none env priv r hstr]
          | some e =>
            rw [frame_of_some env priv r e hstr, cb_parse_eq]
            by_cases hcls : (parse_message env (r.data ++ [NUL]) (e + 2)).2 ≥ 0
            · exact absurd ⟨r, e, rfl, hpass, hlen, hstr, hcls⟩ hnot
            · rw [if_neg hcls]
        · rw [cb_of_too_long env have_pktinfo priv r hpass (by omega)]
      · have hf : interface_filter env have_pktinfo priv r = false := by
          simpa using hpass
        rw [cb_of_filtered env have_pktinfo priv r hf]
  refine ⟨?_, ?_, hemit⟩
  · by_cases hex : ∃ r e, received = some r
        ∧ interface_filter env have_pktinfo priv r = true
        ∧ r.data.length < BUF_SIZE
        ∧ strstr (r.data ++ [NUL]) "\r\n\r\n".toList = some e
        ∧ (parse_message env (r.data ++ [NUL]) (e + 2)).2 ≥ 0
    · obtain ⟨r, e, hr, hpass, hlen, hstr, hcls⟩ := hex
      rw [hemit r e hr hpass hlen hstr hcls]
      simp
    · rw [hdrop hex]
      simp
  · constructor
    · intro hne
      by_contra hex
      exact hne (hdrop hex)
    · rintro ⟨r, e, hr, hpass, hlen, hstr, hcls⟩
      rw [hemit r e hr hpass hlen hstr hcls]
      simp

/-- C14: for a classified datagram the parse step emits its one signal on
a state whose cache was updated first: `gssdp_client_add_cache_entry` is
applied to the peer address text and the Server value when that header is
present, else to the User-Agent value when that one is present; with
neither header the state is unchanged and the signal is still emitted. -/
theorem C14_cache_update_on_receive (env : Externals) (priv : GSSDPClientPrivate)
    (r : Received) (buf : List Char) (len : Nat)
    (hcls : (parse_message env buf len).2 ≥ 0) :
    ∃ h, (parse_message env buf len).1 = some h
      ∧ (socket_source_cb_parse env priv r buf len).signals
          = [⟨env.g_inet_address_to_string r.address.address, r.address.port,
              (parse_message env buf len).2, some h⟩]
      ∧ (∀ v, env.soup_message_headers_get_one h "Server".toList = some v →
          (socket_source_cb_parse env priv r buf len).priv
            = gssdp_client_add_cache_entry env priv
                (some (env.g_inet_address_to_string r.address.address)) (some v))
      ∧ (env.soup_message_headers_get_one h "Server".toList = none →
          ∀ v, env.soup_message_headers_get_one h "User-Agent".toList = some v →
          (socket_source_cb_parse env priv r buf len).priv
            = gssdp_client_add_cache_entry env priv
                (some (env.g_inet_address_to_string r.address.address)) (some v))
      ∧ (env.soup_message_headers_get_one h "Server".toList = none →
          env.soup_message_headers_get_one h "User-Agent".toList = none →
          (socket_source_cb_parse env priv r buf len).priv = priv) := by
  obtain ⟨h, hh⟩ := parse_message_classified env buf len hcls
  refine ⟨h, hh, ?_, ?_, ?_, ?_⟩
  · rw [cb_parse_eq, if_pos hcls, hh]
  · intro v hv
    rw [cb_parse_eq, if_pos hcls, hh]
    simp only [agent_of, hv]
  · intro hs v hv
    rw [cb_parse_eq, if_pos hcls, hh]
    simp only [agent_of, hs, hv]
  · intro hs hu
    rw [cb_parse_eq, if_pos hcls, hh]
    simp only [agent_of, hs, hu]

/-- Witness of C14: the NOTIFY with a SERVER header from a peer that
resolves to 00:11:22:33:44:55 emits one signal and stores the SERVER value
under that hardware address. -/
theorem C14_cache_update_on_receive_witness :
    (parse_message (sample_arp_env sample_server_request sample_bad_response)
        (sample_notify ++ [NUL]) 65).2 ≥ 0
    ∧ (socket_source_cb_parse (sample_arp_env sample_server_request sample_bad_response)
          sample_priv (sample_received sample_notify 2 ⟨2, [192, 168, 1, 10]⟩)
          (sample_notify ++ [NUL]) 65).signals.length = 1
    ∧ (socket_source_cb_parse (sample_arp_env sample_server_request sample_bad_response)
          sample_priv (sample_received sample_notify 2 ⟨2, [192, 168, 1, 10]⟩)
          (sample_notify ++ [NUL]) 65).priv.user_agent_cache
        = some [("00:11:22:33:44:55".toList, "Linux/5 GSSDP/1".toList)] := by
  obtain ⟨h, hh, hsig, hserver, _, _⟩ :=
    C14_cache_update_on_receive (sample_arp_env sample_server_request sample_bad_response)
      sample_priv (sample_received sample_notify 2 ⟨2, [192, 168, 1, 10]⟩)
      (sample_notify ++ [NUL]) 65 (by decide)
  have hh2 : (parse_message (sample_arp_env sample_server_request sample_bad_response)
      (sample_notify ++ [NUL]) 65).1
      = some [("NT".toList, "upnp:rootdevice".toList),
              ("SERVER".toList, "Linux/5 GSSDP/1".toList)] := by decide
  have hval : h = [("NT".toList, "upnp:rootdevice".toList),
      ("SERVER".toList, "Linux/5 GSSDP/1".toList)] := Option.some.inj (hh.symm.trans hh2)
  subst hval
  refine ⟨by decide, ?_, ?_⟩
  · rw [hsig]
    rfl
  · rw [hserver "Linux/5 GSSDP/1".toList (by decide)]
    decide

/-! ## Lemmas on the cache -/

theorem lookup_insert_self (table : GHashTable) (key value : List Char) :
    g_hash_table_lookup (g_hash_table_insert table key value) key = some value := by
  simp [g_hash_table_lookup, g_hash_table_insert]

theorem find_filter_ne (table : GHashTable) (key other : List Char) (h : other ≠ key) :
    (table.filter (fun e => e.1 != key)).find? (fun e => e.1 == other)
      = table.find? (fun e => e.1 == other) := by
  induction table with
  | nil => rfl
  | cons e rest ih =>
    by_cases hk : e.1 = key
    · have hne : ¬ e.1 = other := by
        intro ho
        exact h (ho.symm.trans hk)
      have f1 : (e.1 != key) = false := by simp [hk]
      have f2 : (e.1 == other) = false := by simpa using hne
      simp only [List.filter_cons, List.find?_cons, f1, f2, Bool.false_eq_true, if_false]
      exact ih
    · have f1 : (e.1 != key) = true := by simpa using hk
      by_cases ho : e.1 = other
      · have f2 : (e.1 == other) = true := by simpa using ho
        simp only [List.filter_cons, List.find?_cons, f1, f2, if_true]
      · have f2 : (e.1 == other) = false := by simpa using ho
        simp only [List.filter_cons, List.find?_cons, f1, f2, if_true]
        exact ih

theorem lookup_insert_other (table : GHashTable) (key value other : List Char)
    (h : other ≠ key) :
    g_hash_table_lookup (g_hash_table_insert table key value) other
      = g_hash_table_lookup table other := by
  have f : (key == other) = false := by
    simpa using (fun hk : key = other => h hk.symm)
  simp only [g_hash_table_lookup, g_hash_table_insert, List.find?_cons, f]
  rw [find_filter_ne table key other h]

theorem lookup_none_of_no_entry (table : GHashTable) (key : List Char)
    (h : ∀ e ∈ table, e.1 ≠ key) : g_hash_table_lookup table key = none := by
  simp only [g_hash_table_lookup, Option.map_eq_none', List.find?_eq_none]
  intro e he
  simpa using h e he

/-! ## User-agent cache: claims C15 and C16 -/

/-- C15: for every cache table, address and agent, when the ARP lookup
finds no hardware address `gssdp_client_add_cache_entry` returns the state
unchanged; when it finds `hwaddr` only the cache changes: it now maps
`hwaddr` to the agent, whatever it held before, and every other key keeps
its value. -/
theorem C15_add_cache_entry (env : Externals) (priv : GSSDPClientPrivate)
    (table : GHashTable) (ip agent : List Char) :
    (env.gssdp_net_arp_lookup priv.device ip = none →
      gssdp_client_add_cache_entry env { priv with user_agent_cache := some table }
          (some ip) (some agent)
        = { priv with user_agent_cache := some table })
    ∧ (∀ hwaddr, env.gssdp_net_arp_lookup priv.device ip = some hwaddr →
      gssdp_client_add_cache_entry env { priv with user_agent_cache := some table }
          (some ip) (some agent)
        = { priv with user_agent_cache := some (g_hash_table_insert table hwaddr agent) }
      ∧ g_hash_table_lookup (g_hash_table_insert table hwaddr agent) hwaddr = some agent
      ∧ ∀ key, key ≠ hwaddr →
          g_hash_table_lookup (g_hash_table_insert table hwaddr agent) key
            = g_hash_table_lookup table key) := by
  constructor
  · intro hnone
    simp only [gssdp_client_add_cache_entry, hnone]
  · intro hwaddr hsome
    refine ⟨?_, lookup_insert_self table hwaddr agent, ?_⟩
    · simp only [gssdp_client_add_cache_entry, hsome, Option.map_some']
    · intro key hkey
      exact lookup_insert_other table hwaddr agent key hkey

/-- C16: when `ip` and `ip2` resolve to the same hardware address, after
`gssdp_client_add_cache_entry` for `ip` with agent `a` a lookup for `ip2`
returns `a`, and after a second insertion with `a2` it returns `a2`;
`gssdp_client_guess_user_agent` returns NULL when the address does not
resolve or the table has no entry for its hardware address, and it returns
the state it was given. -/
theorem C16_cache_round_trip (env : Externals) (priv : GSSDPClientPrivate)
    (table : GHashTable) (ip ip2 a hw : List Char)
    (hip : env.gssdp_net_arp_lookup priv.device ip = some hw)
    (hip2 : env.gssdp_net_arp_lookup priv.device ip2 = some hw) :
    (gssdp_client_guess_user_agent env
        (gssdp_client_add_cache_entry env { priv with user_agent_cache := some table }
          (some ip) (some a))
        (some ip2)).2 = some a
    ∧ (∀ a2, (gssdp_client_guess_user_agent env
        (gssdp_client_add_cache_entry env
          (gssdp_client_add_cache_entry env { priv with user_agent_cache := some table }
            (some ip) (some a))
          (some ip) (some a2))
        (some ip2)).2 = some a2)
    ∧ (∀ (s : GSSDPClientPrivate) (ip3 : List Char),
        env.gssdp_net_arp_lookup s.device ip3 = none →
        (gssdp_client_guess_user_agent env s (some ip3)).2 = none)
    ∧ (∀ (s : GSSDPClientPrivate) (t : GHashTable) (ip3 hw3 : List Char),
        env.gssdp_net_arp_lookup s.device ip3 = some hw3 →
        s.user_agent_cache = some t → (∀ e ∈ t, e.1 ≠ hw3) →
        (gssdp_client_guess_user_agent env s (some ip3)).2 = none)
    ∧ (∀ (s : GSSDPClientPrivate) (ip3 : Option (List Char)),
        (gssdp_client_guess_user_agent env s ip3).1 = s) := by
  refine ⟨?_, ?_, ?_, ?_, ?_⟩
  · simp only [gssdp_client_add_cache_entry, hip, Option.map_some',
      gssdp_client_guess_user_agent, hip2, lookup_insert_self]
  · intro a2
    simp only [gssdp_client_add_cache_entry, hip, Option.map_some',
      gssdp_client_guess_user_agent, hip2, lookup_insert_self]
  · intro s ip3 hnone
    simp only [gssdp_client_guess_user_agent, hnone]
  · intro s t ip3 hw3 hsome ht hno
    simp only [gssdp_client_guess_user_agent, hsome, ht, lookup_none_of_no_entry t hw3 hno]
  · intro s ip3
    cases ip3 with
    | none => rfl
    | some ip3 =>
      simp only [gssdp_client_guess_user_agent]
      cases env.gssdp_net_arp_lookup s.device ip3 <;> rfl

/-- Witness of C16: 192.168.1.42 and 192.168.1.43 resolve to the same
hardware address; an agent stored for the first is returned for the
second. -/
theorem C16_cache_round_trip_witness :
    (sample_arp_env sample_bad_request sample_bad_response).gssdp_net_arp_lookup
        sample_priv.device "192.168.1.42".toList = some "00:11:22:33:44:55".toList
    ∧ (sample_arp_env sample_bad_request sample_bad_response).gssdp_net_arp_lookup
        sample_priv.device "192.168.1.43".toList = some "00:11:22:33:44:55".toList
    ∧ (gssdp_client_guess_user_agent (sample_arp_env sample_bad_request sample_bad_response)
        (gssdp_client_add_cache_entry (sample_arp_env sample_bad_request sample_bad_response)
          { sample_priv with
            user_agent_cache := some [("00:11:22:33:44:55".toList, "Old/1".toList)] }
          (some "192.168.1.42".toList) (some "Linux/5 GSSDP/1".toList))
        (some "192.168.1.43".toList)).2 = some "Linux/5 GSSDP/1".toList :=
  ⟨by decide, by decide,
   (C16_cache_round_trip (sample_arp_env sample_bad_request sample_bad_response) sample_priv
      [("00:11:22:33:44:55".toList, "Old/1".toList)] "192.168.1.42".toList
      "192.168.1.43".toList "Linux/5 GSSDP/1".toList "00:11:22:33:44:55".toList
      (by decide) (by decide)).1⟩

/-! ## Initialisation and fallback filter: claims C17 to C20 -/

/-- C17: on a client whose `initialized` flag is set,
`gssdp_client_initable_init` returns TRUE with no error and the state
unchanged, whatever the network calls would have answered: no probe runs
and no socket source is created or replaced. -/
theorem C17_reinit_is_noop (net : NetExternals) (priv : GSSDPClientPrivate) :
    gssdp_client_initable_init net { priv with initialized := true }
      = ⟨{ priv with initialized := true }, true, none⟩ := by
  simp only [gssdp_client_initable_init, if_true]

theorem init_network_info_eq (net : NetExternals) (priv : GSSDPClientPrivate) :
    init_network_info net priv
      = network_info_checks priv (with_host_addr net (probed_device net priv)) := by
  rfl

theorem with_host_addr_names (net : NetExternals) (device : GSSDPNetworkDevice) :
    (with_host_addr net device).iface_name = device.iface_name
    ∧ (with_host_addr net device).host_ip = device.host_ip := by
  obtain ⟨iface_name, host_ip, host_addr, index, mask, network⟩ := device
  cases host_addr <;> cases host_ip <;> exact ⟨rfl, rfl⟩

theorem network_info_checks_state (priv : GSSDPClientPrivate) (device : GSSDPNetworkDevice) :
    (network_info_checks priv device).1 = { priv with device := device } := by
  obtain ⟨iface_name, host_ip, host_addr, index, mask, network⟩ := device
  cases iface_name <;> cases host_ip <;> rfl

theorem network_info_checks_error (priv : GSSDPClientPrivate) (device : GSSDPNetworkDevice) :
    (device.iface_name = none →
      (network_info_checks priv device).2
        = some ⟨GErrorKind.GSSDP_ERROR_FAILED, "No default route?".toList⟩)
    ∧ (∀ iface, device.iface_name = some iface → device.host_ip = none →
      (network_info_checks priv device).2
        = some ⟨GErrorKind.GSSDP_ERROR_NO_IP_ADDRESS,
            "Failed to find IP of interface ".toList ++ iface⟩)
    ∧ (∀ iface ip, device.iface_name = some iface → device.host_ip = some ip →
      (network_info_checks priv device).2 = none) := by
  refine ⟨?_, ?_, ?_⟩
  · intro h
    simp only [network_info_checks, h]
  · intro iface h1 h2
    simp only [network_info_checks, h1, h2]
  · intro iface ip h1 h2
    simp only [network_info_checks, h1, h2]

theorem init_network_info_state (net : NetExternals) (priv : GSSDPClientPrivate) :
    (init_network_info net priv).1
      = { priv with device := with_host_addr net (probed_device net priv) } := by
  rw [init_network_info_eq, network_info_checks_state]

/-- C18: `init_network_info` judges the device as the probe left it (the
interface name and host IP of the final device are those after the probe):
without an interface name it fails with the generic error `No default
route?`, also when the host IP is missing too; with an interface name but
no host IP it fails with the no-IP-address error naming the interface; it
succeeds exactly when both are set. -/
theorem C18_network_info_errors (net : NetExternals) (priv : GSSDPClientPrivate) :
    (init_network_info net priv).1.device.iface_name = (probed_device net priv).iface_name
    ∧ (init_network_info net priv).1.device.host_ip = (probed_device net priv).host_ip
    ∧ ((probed_device net priv).iface_name = none →
        (init_network_info net priv).2
          = some ⟨GErrorKind.GSSDP_ERROR_FAILED, "No default route?".toList⟩)
    ∧ (∀ iface, (probed_device net priv).iface_name = some iface →
        (probed_device net priv).host_ip = none →
        (init_network_info net priv).2
          = some ⟨GErrorKind.GSSDP_ERROR_NO_IP_ADDRESS,
              "Failed to find IP of interface ".toList ++ iface⟩)
    ∧ ((init_network_info net priv).2 = none ↔
        (probed_device net priv).iface_name ≠ none
        ∧ (probed_device net priv).host_ip ≠ none) := by
  obtain ⟨hn1, hn2⟩ := with_host_addr_names net (probed_device net priv)
  obtain ⟨he1, he2, he3⟩ :=
    network_info_checks_error priv (with_host_addr net (probed_device net priv))
  rw [hn1] at he1 he2 he3
  rw [hn2] at he2 he3
  refine ⟨?_, ?_, ?_, ?_, ?_⟩
  · rw [init_network_info_state]
    exact hn1
  · rw [init_network_info_state]
    exact hn2
  · intro h
    rw [init_network_info_eq]
    exact he1 h
  · intro iface h1 h2
    rw [init_network_info_eq]
    exact he2 iface h1 h2
  · rw [init_network_info_eq]
    constructor
    · intro hnone
      cases hi : (probed_device net priv).iface_name with
      | none =>
        rw [he1 hi] at hnone
        cases hnone
      | some iface =>
        cases hh : (probed_device net priv).host_ip with
        | none =>
          rw [he2 iface hi hh] at hnone
          cases hnone
        | some ip => exact ⟨by simp, by simp⟩
    · rintro ⟨h1, h2⟩
      cases hi : (probed_device net priv).iface_name with
      | none => exact absurd hi h1
      | some iface =>
        cases hh : (probed_device net priv).host_ip with
        | none => exact absurd hh h2
        | some ip => exact he3 iface ip hi hh

/-- C20: in the receive path without pktinfo, for a peer whose IPv4 word is
`p`, the interface filter accepts the datagram exactly when `p` and the
host address word agree under the netmask; so a peer equal to the host
address is accepted, every peer is accepted under the mask 0, and a
datagram that fails the test is dropped with no signal. -/
theorem C20_subnet_filter (env : Externals) (priv : GSSDPClientPrivate) (r : Received)
    (p : Nat) (hp : env.g_socket_address_to_native r.address = some p) :
    (interface_filter env false priv r = true ↔
        p &&& priv.device.mask
          = env.inet_addr (gssdp_client_get_host_ip priv) &&& priv.device.mask)
    ∧ (p = env.inet_addr (gssdp_client_get_host_ip priv) →
        interface_filter env false priv r = true)
    ∧ (priv.device.mask = 0 → interface_filter env false priv r = true)
    ∧ (p &&& priv.device.mask
          ≠ env.inet_addr (gssdp_client_get_host_ip priv) &&& priv.device.mask →
        socket_source_cb env false priv (some r) = ⟨priv, [], Exit.filtered⟩) := by
  have hiff : interface_filter env false priv r = true ↔
      p &&& priv.device.mask
        = env.inet_addr (gssdp_client_get_host_ip priv) &&& priv.device.mask := by
    simp only [interface_filter, Bool.false_eq_true, if_false, subnet_filter, hp]
    by_cases h : p &&& priv.device.mask
        = env.inet_addr (gssdp_client_get_host_ip priv) &&& priv.device.mask
    · simp [h]
    · simp [h]
  refine ⟨hiff, ?_, ?_, ?_⟩
  · intro h
    rw [hiff, h]
  · intro h
    rw [hiff, h]
    simp
  · intro h
    apply cb_of_filtered
    cases hf : interface_filter env false priv r with
    | false => rfl
    | true => exact absurd (hiff.mp hf) h

/-- Witness of C20: the peer 192.168.1.42 and the host 192.168.1.10 agree
under the mask 255.255.255.0, so the datagram passes the fallback filter. -/
theorem C20_subnet_filter_witness :
    (sample_env sample_bad_request sample_bad_response).g_socket_address_to_native
        (sample_received sample_msearch 2 ⟨2, [192, 168, 1, 10]⟩).address = some 3232235818
    ∧ interface_filter (sample_env sample_bad_request sample_bad_response) false sample_priv
        (sample_received sample_msearch 2 ⟨2, [192, 168, 1, 10]⟩) = true :=
  ⟨rfl,
   (C20_subnet_filter (sample_env sample_bad_request sample_bad_response) sample_priv
      (sample_received sample_msearch 2 ⟨2, [192, 168, 1, 10]⟩) 3232235818 rfl).1.mpr
      (by decide)⟩

/-! ## Lemmas on initialisation -/

theorem init_sockets_eq (net : NetExternals) (priv : GSSDPClientPrivate) :
    init_sockets net priv
      = match net.socket_source_init (request_source priv) with
        | some e => ({ priv with request_socket := none }, some e)
        | none =>
          match net.socket_source_init (multicast_source priv) with
          | some e =>
            ({ priv with request_socket := some (request_source priv),
                         multicast_socket := none }, some e)
          | none =>
            match net.socket_source_init (search_source priv) with
            | some e =>
              ({ priv with request_socket := some (request_source priv),
                           multicast_socket := some (multicast_source priv),
                           search_socket := none }, some e)
            | none =>
              ({ priv with request_socket := some (request_source priv),
                           multicast_socket := some (multicast_source priv),
                           search_socket := some (search_source priv) }, none) := by
  rfl

theorem init_eq (net : NetExternals) (priv : GSSDPClientPrivate)
    (hnet : net.gssdp_net_init = none) :
    gssdp_client_initable_init net (not_initialized priv)
      = match init_network_info net (not_initialized priv) with
        | (p, some e) => init_errors_label p (some e)
        | (p, none) =>
          match init_sockets net p with
          | (p2, internal_error) => init_errors_label p2 internal_error := by
  simp only [gssdp_client_initable_init, not_initialized, hnet, Bool.false_eq_true, if_false]

theorem init_of_network_info_error (net : NetExternals) (priv : GSSDPClientPrivate)
    (hnet : net.gssdp_net_init = none) (e : GError)
    (h : (init_network_info net (not_initialized priv)).2 = some e) :
    gssdp_client_initable_init net (not_initialized priv)
      = ⟨clear_sockets (init_network_info net (not_initialized priv)).1, false, some e⟩ := by
  have hpair : init_network_info net (not_initialized priv)
      = ((init_network_info net (not_initialized priv)).1, some e) := by
    rw [← h]
  rw [init_eq net priv hnet, hpair]
  simp only []
  rw [init_network_info_state]
  rfl

theorem init_of_sockets (net : NetExternals) (priv : GSSDPClientPrivate)
    (hnet : net.gssdp_net_init = none)
    (h : (init_network_info net (not_initialized priv)).2 = none) :
    gssdp_client_initable_init net (not_initialized priv)
      = init_errors_label (init_sockets net (init_network_info net (not_initialized priv)).1).1
          (init_sockets net (init_network_info net (not_initialized priv)).1).2 := by
  have hpair : init_network_info net (not_initialized priv)
      = ((init_network_info net (not_initialized priv)).1, none) := by
    rw [← h]
  rw [init_eq net priv hnet]
  conv_lhs => rw [hpair]

theorem errors_label_request_failed (net : NetExternals) (p : GSSDPClientPrivate) (e : GError)
    (h1 : net.socket_source_init (request_source p) = some e) :
    init_errors_label (init_sockets net p).1 (init_sockets net p).2
      = ⟨clear_sockets p, false, some e⟩ := by
  simp only [init_sockets_eq, h1]
  rfl

theorem errors_label_multicast_failed (net : NetExternals) (p : GSSDPClientPrivate) (e : GError)
    (h1 : net.socket_source_init (request_source p) = none)
    (h2 : net.socket_source_init (multicast_source p) = some e) :
    init_errors_label (init_sockets net p).1 (init_sockets net p).2
      = ⟨clear_sockets p, false, some e⟩ := by
  simp only [init_sockets_eq, h1, h2]
  rfl

theorem errors_label_search_failed (net : NetExternals) (p : GSSDPClientPrivate) (e : GError)
    (h1 : net.socket_source_init (request_source p) = none)
    (h2 : net.socket_source_init (multicast_source p) = none)
    (h3 : net.socket_source_init (search_source p) = some e) :
    init_errors_label (init_sockets net p).1 (init_sockets net p).2
      = ⟨clear_sockets p, false, some e⟩ := by
  simp only [init_sockets_eq, h1, h2, h3]
  rfl

theorem errors_label_all_created (net : NetExternals) (p : GSSDPClientPrivate)
    (h1 : net.socket_source_init (request_source p) = none)
    (h2 : net.socket_source_init (multicast_source p) = none)
    (h3 : net.socket_source_init (search_source p) = none) :
    init_errors_label (init_sockets net p).1 (init_sockets net p).2
      = ⟨initialized_state p, true, none⟩ := by
  simp only [init_sockets_eq, h1, h2, h3]
  rfl

/-- C19: for a client that is not initialised and holds no socket source,
once `gssdp_net_init` has succeeded every failing run of
`gssdp_client_initable_init` returns FALSE with the three socket fields
empty, `initialized` still false and the error of the first failing step
(network info, then request, multicast, search source); a run returns TRUE
only when all four steps succeed, and then the three sources are stored
attached and `initialized` is true. -/
theorem C19_init_failure_rollback (net : NetExternals) (priv : GSSDPClientPrivate)
    (hnet : net.gssdp_net_init = none) :
    ((gssdp_client_initable_init net (not_initialized priv)).ret = false →
      (gssdp_client_initable_init net (not_initialized priv)).priv.request_socket = none
      ∧ (gssdp_client_initable_init net (not_initialized priv)).priv.multicast_socket = none
      ∧ (gssdp_client_initable_init net (not_initialized priv)).priv.search_socket = none
      ∧ (gssdp_client_initable_init net (not_initialized priv)).priv.initialized = false
      ∧ (gssdp_client_initable_init net (not_initialized priv)).error ≠ none)
    ∧ ((gssdp_client_initable_init net (not_initialized priv)).ret = true →
      gssdp_client_initable_init net (not_initialized priv)
          = ⟨initialized_state (init_network_info net (not_initialized priv)).1, true, none⟩
      ∧ (init_network_info net (not_initialized priv)).2 = none
      ∧ net.socket_source_init
          (request_source (init_network_info net (not_initialized priv)).1) = none
      ∧ net.socket_source_init
          (multicast_source (init_network_info net (not_initialized priv)).1) = none
      ∧ net.socket_source_init
          (search_source (init_network_info net (not_initialized priv)).1) = none)
    ∧ (∀ e, (init_network_info net (not_initialized priv)).2 = some e →
      (gssdp_client_initable_init net (not_initialized priv)).ret = false
      ∧ (gssdp_client_initable_init net (not_initialized priv)).error = some e)
    ∧ ((init_network_info net (not_initialized priv)).2 = none →
      (∀ e, net.socket_source_init
              (request_source (init_network_info net (not_initialized priv)).1) = some e →
        (gssdp_client_initable_init net (not_initialized priv)).ret = false
        ∧ (gssdp_client_initable_init net (not_initialized priv)).error = some e)
      ∧ (net.socket_source_init
            (request_source (init_network_info net (not_initialized priv)).1) = none →
        (∀ e, net.socket_source_init
                (multicast_source (init_network_info net (not_initialized priv)).1) = some e →
          (gssdp_client_initable_init net (not_initialized priv)).ret = false
          ∧ (gssdp_client_initable_init net (not_initialized priv)).error = some e)
        ∧ (net.socket_source_init
              (multicast_source (init_network_info net (not_initialized priv)).1) = none →
          ∀ e, net.socket_source_init
                  (search_source (init_network_info net (not_initialized priv)).1) = some e →
            (gssdp_client_initable_init net (not_initialized priv)).ret = false
            ∧ (gssdp_client_initable_init net (not_initialized priv)).error = some e))) := by
  have hA := init_of_network_info_error net priv hnet
  have hS := init_of_sockets net priv hnet
  have hB := errors_label_request_failed net (init_network_info net (not_initialized priv)).1
  have hC := errors_label_multicast_failed net (init_network_info net (not_initialized priv)).1
  have hD := errors_label_search_failed net (init_network_info net (not_initialized priv)).1
  have hE := errors_label_all_created net (init_network_info net (not_initialized priv)).1
  refine ⟨?_, ?_, ?_, ?_⟩
  · intro hret
    cases hni : (init_network_info net (not_initialized priv)).2 with
    | some e =>
      rw [hA e hni]
      exact ⟨rfl, rfl, rfl, by rw [init_network_info_state]; rfl, by simp⟩
    | none =>
      rw [hS hni] at hret ⊢
      cases h1 : net.socket_source_init
          (request_source (init_network_info net (not_initialized priv)).1) with
      | some e =>
        rw [hB e h1]
        exact ⟨rfl, rfl, rfl, by rw [init_network_info_state]; rfl, by simp⟩
      | none =>
        cases h2 : net.socket_source_init
            (multicast_source (init_network_info net (not_initialized priv)).1) with
        | some e =>
          rw [hC e h1 h2]
          exact ⟨rfl, rfl, rfl, by rw [init_network_info_state]; rfl, by simp⟩
        | none =>
          cases h3 : net.socket_source_init
              (search_source (init_network_info net (not_initialized priv)).1) with
          | some e =>
            rw [hD e h1 h2 h3]
            exact ⟨rfl, rfl, rfl, by rw [init_network_info_state]; rfl, by simp⟩
          | none =>
            rw [hE h1 h2 h3] at hret
            cases hret
  · intro hret
    cases hni : (init_network_info net (not_initialized priv)).2 with
    | some e =>
      rw [hA e hni] at hret
      cases hret
    | none =>
      rw [hS hni] at hret ⊢
      cases h1 : net.socket_source_init
          (request_source (init_network_info net (not_initialized priv)).1) with
      | some e =>
        rw [hB e h1] at hret
        cases hret
      | none =>
        cases h2 : net.socket_source_init
            (multicast_source (init_network_info net (not_initialized priv)).1) with
        | some e =>
          rw [hC e h1 h2] at hret
          cases hret
        | none =>
          cases h3 : net.socket_source_init
              (search_source (init_network_info net (not_initialized priv)).1) with
          | some e =>
            rw [hD e h1 h2 h3] at hret
            cases hret
          | none => exact ⟨hE h1 h2 h3, rfl, rfl, rfl, rfl⟩
  · intro e hni
    rw [hA e hni]
    exact ⟨rfl, rfl⟩
  · intro hni
    rw [hS hni]
    refine ⟨?_, ?_⟩
    · intro e h1
      rw [hB e h1]
      exact ⟨rfl, rfl⟩
    · intro h1
      refine ⟨?_, ?_⟩
      · intro e h2
        rw [hC e h1 h2]
        exact ⟨rfl, rfl⟩
      · intro h2 e h3
        rw [hD e h1 h2 h3]
        exact ⟨rfl, rfl⟩

/-- Witness of C19: on a fresh client, with a probe that finds `eth0` and a
multicast source that cannot be created, initialisation returns FALSE with
the error of the multicast source. -/
theorem C19_init_failure_rollback_witness :
    (sample_net (some GSSDPSocketSourceType.GSSDP_SOCKET_SOURCE_TYPE_MULTICAST)).gssdp_net_init
      = none
    ∧ (gssdp_client_initable_init
          (sample_net (some GSSDPSocketSourceType.GSSDP_SOCKET_SOURCE_TYPE_MULTICAST))
          (not_initialized sample_fresh)).ret = false
    ∧ (gssdp_client_initable_init
          (sample_net (some GSSDPSocketSourceType.GSSDP_SOCKET_SOURCE_TYPE_MULTICAST))
          (not_initialized sample_fresh)).error
        = some ⟨GErrorKind.foreign 98, "Address already in use".toList⟩ :=
  ⟨rfl,
   ((((C19_init_failure_rollback
        (sample_net (some GSSDPSocketSourceType.GSSDP_SOCKET_SOURCE_TYPE_MULTICAST))
        sample_fresh rfl).2.2.2 (by decide)).2 (by decide)).1
      ⟨GErrorKind.foreign 98, "Address already in use".toList⟩ (by decide))⟩

theorem init_of_net_init_error (net : NetExternals) (priv : GSSDPClientPrivate) (e : GError)
    (h : net.gssdp_net_init = some e) :
    gssdp_client_initable_init net (not_initialized priv)
      = ⟨not_initialized priv, false, some e⟩ := by
  simp only [gssdp_client_initable_init, not_initialized, h, Bool.false_eq_true, if_false]

theorem init_search_socket_cases (net : NetExternals) (priv : GSSDPClientPrivate) :
    (gssdp_client_initable_init net (not_initialized priv)).priv.search_socket = none
    ∨ (gssdp_client_initable_init net (not_initialized priv)).priv.search_socket
        = some (gssdp_socket_source_attach
            (search_source (init_network_info net (not_initialized priv)).1)) := by
  cases hnet : net.gssdp_net_init with
  | some e =>
    rw [init_of_net_init_error net priv e hnet]
    exact Or.inl rfl
  | none =>
    cases hni : (init_network_info net (not_initialized priv)).2 with
    | some e =>
      rw [init_of_network_info_error net priv hnet e hni]
      exact Or.inl rfl
    | none =>
      rw [init_of_sockets net priv hnet hni]
      cases h1 : net.socket_source_init
          (request_source (init_network_info net (not_initialized priv)).1) with
      | some e =>
        rw [errors_label_request_failed net _ e h1]
        exact Or.inl rfl
      | none =>
        cases h2 : net.socket_source_init
            (multicast_source (init_network_info net (not_initialized priv)).1) with
        | some e =>
          rw [errors_label_multicast_failed net _ e h1 h2]
          exact Or.inl rfl
        | none =>
          cases h3 : net.socket_source_init
              (search_source (init_network_info net (not_initialized priv)).1) with
          | some e =>
            rw [errors_label_search_failed net _ e h1 h2 h3]
            exact Or.inl rfl
          | none =>
            rw [errors_label_all_created net _ h1 h2 h3]
            exact Or.inr rfl

theorem search_source_port (net : NetExternals) (priv : GSSDPClientPrivate) :
    (search_source (init_network_info net (not_initialized priv)).1).port
      = some priv.msearch_port := by
  rw [init_network_info_state]
  rfl

/-! ## Remaining claims: C21 to C25 -/

/-- C21 as stated fails: a fresh client configured with `msearch-port` 1900
initialises successfully and its search source is created with port 1900,
which is SSDP_PORT. -/
theorem C21_counterexample :
    sample_fresh_1900.msearch_port ≤ 65535
    ∧ (gssdp_client_initable_init (sample_net none) (not_initialized sample_fresh_1900)).ret
        = true
    ∧ (gssdp_client_initable_init (sample_net none)
          (not_initialized sample_fresh_1900)).priv.search_socket
        = some ⟨GSSDPSocketSourceType.GSSDP_SOCKET_SOURCE_TYPE_SEARCH,
            some "192.168.1.10".toList, 4, some "eth0".toList, some 1900, true⟩
    ∧ SSDP_PORT = 1900 := by
  refine ⟨by decide, by decide, by decide, by decide⟩

/-- C21 (amended): for every configured `msearch-port` other than 1900, the
port that initialisation requests for the search source is that port and so
is not SSDP_PORT, and a search source stored by initialisation carries it. -/
theorem C21_search_port (net : NetExternals) (priv : GSSDPClientPrivate)
    (hport : priv.msearch_port ≠ SSDP_PORT) :
    (search_source (init_network_info net (not_initialized priv)).1).port
        = some priv.msearch_port
    ∧ (search_source (init_network_info net (not_initialized priv)).1).port ≠ some SSDP_PORT
    ∧ (∀ source,
        (gssdp_client_initable_init net (not_initialized priv)).priv.search_socket
            = some source →
        source.type = GSSDPSocketSourceType.GSSDP_SOCKET_SOURCE_TYPE_SEARCH
        ∧ source.port = some priv.msearch_port
        ∧ source.port ≠ some SSDP_PORT) := by
  have hp := search_source_port net priv
  have hne : some priv.msearch_port ≠ some SSDP_PORT := by
    intro h
    exact hport (Option.some.inj h)
  refine ⟨hp, by rw [hp]; exact hne, ?_⟩
  intro source hs
  rcases init_search_socket_cases net priv with h | h
  · rw [h] at hs
    cases hs
  · rw [h] at hs
    have hsrc := Option.some.inj hs
    subst hsrc
    refine ⟨rfl, ?_, ?_⟩
    · exact hp
    · show (search_source (init_network_info net (not_initialized priv)).1).port
        ≠ some SSDP_PORT
      rw [hp]
      exact hne

/-- Witness of C21: a fresh client with `msearch-port` 0 requests port 0
for its search source. -/
theorem C21_search_port_witness :
    sample_fresh.msearch_port ≠ SSDP_PORT
    ∧ (search_source (init_network_info (sample_net none) (not_initialized sample_fresh)).1).port
        = some 0 :=
  ⟨by decide, (C21_search_port (sample_net none) sample_fresh (by decide)).1⟩

theorem find_pktinfo_after_others (tags : List Nat) (ifindex : Int) (local_addr : GInetAddress)
    (rest : List GSocketControlMessage) :
    (tags.map GSocketControlMessage.other
        ++ GSocketControlMessage.pktinfo ifindex local_addr :: rest).find?
        GSSDP_IS_PKTINFO_MESSAGE
      = some (GSocketControlMessage.pktinfo ifindex local_addr) := by
  induction tags with
  | nil => simp [GSSDP_IS_PKTINFO_MESSAGE]
  | cons t ts ih =>
    simp only [List.map_cons, List.cons_append, List.find?, GSSDP_IS_PKTINFO_MESSAGE]
    exact ih

theorem pktinfo_filter_others (priv : GSSDPClientPrivate) (tags : List Nat) :
    pktinfo_filter priv (tags.map GSocketControlMessage.other) = true := by
  induction tags with
  | nil => rfl
  | cons t ts ih =>
    simp only [List.map_cons, pktinfo_filter]
    exact ih

theorem star_check_passes (rest : List Char) :
    ascii_strncasecmp_loop ('*' :: rest) "*".toList 1 = 0 := by
  simp [ascii_strncasecmp_loop]

theorem parse_http_request_star (env : Externals) (buf : List Char) (len : Nat)
    (hdrs : SoupMessageHeaders) (m rest : List Char)
    (hparse : env.soup_headers_parse_request (buf.take len)
        = ⟨SOUP_STATUS_OK, hdrs, some m, some ('*' :: rest), SoupHTTPVersion.SOUP_HTTP_1_1⟩) :
    parse_http_request env buf len (-1)
      = (true, some hdrs,
          if begins_with_nocase SSDP_SEARCH_METHOD m = true then _GSSDP_DISCOVERY_REQUEST
          else if begins_with_nocase GENA_NOTIFY_METHOD m = true then _GSSDP_ANNOUNCEMENT
          else -1) := by
  have hs : ∀ c ∈ SSDP_SEARCH_METHOD, c.toNat ≠ 0 := by decide
  have hg : ∀ c ∈ GENA_NOTIFY_METHOD, c.toNat ≠ 0 := by decide
  have hstar := star_check_passes rest
  have e1 := ascii_strncasecmp_loop_eq_zero_iff SSDP_SEARCH_METHOD hs m
  have e2 := ascii_strncasecmp_loop_eq_zero_iff GENA_NOTIFY_METHOD hg m
  simp only [parse_http_request, hparse, g_ascii_strncasecmp, hstar, Option.isSome_some,
    and_self, if_true, strlen, e1, e2]

/-- C23: in the pktinfo receive path the first pktinfo control message
decides the interface filter, whatever other control messages precede it
and whatever messages, pktinfo or not, follow it; a datagram whose control
messages include no pktinfo message passes the filter for every peer
address and every library behaviour. -/
theorem C23_first_pktinfo_decides (env : Externals) (priv : GSSDPClientPrivate)
    (data : List Char) (address : GSocketAddress) (tags : List Nat)
    (ifindex : Int) (local_addr : GInetAddress) (rest : List GSocketControlMessage) :
    interface_filter env true priv
        ⟨data, address,
          tags.map GSocketControlMessage.other
            ++ GSocketControlMessage.pktinfo ifindex local_addr :: rest⟩
      = decide ((ifindex = priv.device.index ∨ ifindex = 1)
                ∧ priv.device.host_addr = some local_addr)
    ∧ interface_filter env true priv
        ⟨data, address,
          tags.map GSocketControlMessage.other
            ++ GSocketControlMessage.pktinfo ifindex local_addr :: rest⟩
      = interface_filter env true priv
          ⟨data, address, [GSocketControlMessage.pktinfo ifindex local_addr]⟩
    ∧ interface_filter env true priv
        ⟨data, address, tags.map GSocketControlMessage.other⟩ = true
    ∧ (socket_source_cb env true priv
        (some ⟨data, address, tags.map GSocketControlMessage.other⟩)).exit ≠ Exit.filtered := by
  have h1 := pktinfo_filter_first priv _ ifindex local_addr
    (find_pktinfo_after_others tags ifindex local_addr rest)
  have h2 := pktinfo_filter_first priv [GSocketControlMessage.pktinfo ifindex local_addr]
    ifindex local_addr (by simp [GSSDP_IS_PKTINFO_MESSAGE])
  have h3 : interface_filter env true priv
      ⟨data, address, tags.map GSocketControlMessage.other⟩ = true := by
    simp only [interface_filter, if_true]
    exact pktinfo_filter_others priv tags
  refine ⟨?_, ?_, h3, ?_⟩
  · simp only [interface_filter, if_true]
    exact h1
  · simp only [interface_filter, if_true]
    rw [h1, h2]
  · by_cases hlen : data.length < BUF_SIZE
    · rw [cb_of_pass env true priv _ h3 hlen]
      rcases frame_exit_cases env priv
        ⟨data, address, tags.map GSocketControlMessage.other⟩ with h | h | h <;> simp [h]
    · rw [cb_of_too_long env true priv _ h3 (by simpa using hlen)]
      simp

/-- C24: for a request that the parser accepts in version 1.1 with a target
that starts with `*`, a method that begins with M-SEARCH in any letter case
gives one DiscoveryRequest signal, otherwise a method that begins with
NOTIFY in any letter case gives one Announcement signal, and a method with
neither beginning gives no signal; `m-search` and `M-SEARCHX` begin with
M-SEARCH in this sense. -/
theorem C24_method_prefix_match (env : Externals) (priv : GSSDPClientPrivate)
    (r : Received) (buf : List Char) (len : Nat) (hdrs : SoupMessageHeaders)
    (m rest : List Char)
    (hparse : env.soup_headers_parse_request (buf.take len)
        = ⟨SOUP_STATUS_OK, hdrs, some m, some ('*' :: rest), SoupHTTPVersion.SOUP_HTTP_1_1⟩) :
    (begins_with_nocase "M-SEARCH".toList m = true →
        (socket_source_cb_parse env priv r buf len).signals
          = [⟨env.g_inet_address_to_string r.address.address, r.address.port,
              _GSSDP_DISCOVERY_REQUEST, some hdrs⟩])
    ∧ (begins_with_nocase "M-SEARCH".toList m = false →
        begins_with_nocase "NOTIFY".toList m = true →
        (socket_source_cb_parse env priv r buf len).signals
          = [⟨env.g_inet_address_to_string r.address.address, r.address.port,
              _GSSDP_ANNOUNCEMENT, some hdrs⟩])
    ∧ (begins_with_nocase "M-SEARCH".toList m = false →
        begins_with_nocase "NOTIFY".toList m = false →
        socket_source_cb_parse env priv r buf len = ⟨priv, [], Exit.not_classified⟩)
    ∧ ((socket_source_cb_parse env priv r buf len).signals = [] ↔
        (begins_with_nocase "M-SEARCH".toList m = false
          ∧ begins_with_nocase "NOTIFY".toList m = false))
    ∧ begins_with_nocase "M-SEARCH".toList "m-search".toList = true
    ∧ begins_with_nocase "M-SEARCH".toList "M-SEARCHX".toList = true
    ∧ begins_with_nocase "NOTIFY".toList "notify".toList = true := by
  have hacc := parse_http_request_star env buf len hdrs m rest hparse
  have c1 : begins_with_nocase "M-SEARCH".toList m = true →
      (socket_source_cb_parse env priv r buf len).signals
        = [⟨env.g_inet_address_to_string r.address.address, r.address.port,
            _GSSDP_DISCOVERY_REQUEST, some hdrs⟩] := by
    intro h1
    have h1b : begins_with_nocase SSDP_SEARCH_METHOD m = true := h1
    rw [h1b] at hacc
    simp only [if_true] at hacc
    simp only [socket_source_cb_parse, hacc]
    simp [_GSSDP_DISCOVERY_REQUEST]
  have c2 : begins_with_nocase "M-SEARCH".toList m = false →
      begins_with_nocase "NOTIFY".toList m = true →
      (socket_source_cb_parse env priv r buf len).signals
        = [⟨env.g_inet_address_to_string r.address.address, r.address.port,
            _GSSDP_ANNOUNCEMENT, some hdrs⟩] := by
    intro h1 h2
    have h1b : begins_with_nocase SSDP_SEARCH_METHOD m = false := h1
    have h2b : begins_with_nocase GENA_NOTIFY_METHOD m = true := h2
    rw [h1b, h2b] at hacc
    simp only [Bool.false_eq_true, if_false, if_true] at hacc
    simp only [socket_source_cb_parse, hacc]
    simp [_GSSDP_ANNOUNCEMENT]
  have c3 : begins_with_nocase "M-SEARCH".toList m = false →
      begins_with_nocase "NOTIFY".toList m = false →
      socket_source_cb_parse env priv r buf len = ⟨priv, [], Exit.not_classified⟩ := by
    intro h1 h2
    have h1b : begins_with_nocase SSDP_SEARCH_METHOD m = false := h1
    have h2b : begins_with_nocase GENA_NOTIFY_METHOD m = false := h2
    rw [h1b, h2b] at hacc
    simp only [Bool.false_eq_true, if_false] at hacc
    simp only [socket_source_cb_parse, hacc]
    simp
  refine ⟨c1, c2, c3, ?_, by decide, by decide, by decide⟩
  constructor
  · intro hnil
    cases h1 : begins_with_nocase "M-SEARCH".toList m with
    | true =>
      rw [c1 h1] at hnil
      cases hnil
    | false =>
      cases h2 : begins_with_nocase "NOTIFY".toList m with
      | true =>
        rw [c2 h1 h2] at hnil
        cases hnil
      | false => exact ⟨rfl, rfl⟩
  · rintro ⟨h1, h2⟩
    rw [c3 h1 h2]

/-- Witness of C24: with a parser that reports the method `m-search` for
the target `*` in version 1.1, the parse step emits one DiscoveryRequest
signal. -/
theorem C24_method_prefix_match_witness :
    (sample_env sample_lowercase_request sample_bad_response).soup_headers_parse_request
        ((sample_msearch ++ [NUL]).take 63)
      = ⟨SOUP_STATUS_OK, [("ST".toList, "ssdp:all".toList)], some "m-search".toList,
          some ('*' :: []), SoupHTTPVersion.SOUP_HTTP_1_1⟩
    ∧ (socket_source_cb_parse (sample_env sample_lowercase_request sample_bad_response)
          sample_priv (sample_received sample_msearch 2 ⟨2, [192, 168, 1, 10]⟩)
          (sample_msearch ++ [NUL]) 63).signals
        = [⟨"192.168.1.42".toList, 51000, _GSSDP_DISCOVERY_REQUEST,
            some [("ST".toList, "ssdp:all".toList)]⟩] :=
  ⟨rfl,
   (C24_method_prefix_match (sample_env sample_lowercase_request sample_bad_response)
      sample_priv (sample_received sample_msearch 2 ⟨2, [192, 168, 1, 10]⟩)
      (sample_msearch ++ [NUL]) 63 [("ST".toList, "ssdp:all".toList)] "m-search".toList []
      rfl).1 (by decide)⟩

theorem c_str_of_no_nul (data : List Char) (h : ∀ c ∈ data, c ≠ NUL) : c_str data = data := by
  induction data with
  | nil => rfl
  | cons c rest ih =>
    have hc : c ≠ NUL := h c (by simp)
    have ih2 := ih (fun x hx => h x (by simp [hx]))
    simp only [c_str] at ih2
    simp [c_str, hc, ih2]

theorem find_first_c_str_none (needle : List Char) (hne : needle ≠ [])
    (data : List Char) (z k : Nat) (hz : data[z]? = some NUL) (hzk : z < k)
    (hfirst : ∀ j, j < k → occurs_at needle data j = false) :
    find_first needle (c_str data) = none := by
  induction data generalizing z k with
  | nil => simp at hz
  | cons c rest ih =>
    by_cases hc : c = NUL
    · simp [c_str, hc, find_first, hne]
    · have hcs : c_str (c :: rest) = c :: c_str rest := by
        simp [c_str, hc]
      cases z with
      | zero =>
        simp only [List.getElem?_cons_zero, Option.some.injEq] at hz
        exact absurd hz hc
      | succ z2 =>
        cases k with
        | zero => omega
        | succ k2 =>
          have hz2 : rest[z2]? = some NUL := by simpa using hz
          have hfirst2 : ∀ j, j < k2 → occurs_at needle rest j = false := by
            intro j hj
            have := hfirst (j + 1) (by omega)
            simpa [occurs_at] using this
          have ih2 := ih z2 k2 hz2 (by omega) hfirst2
          have h0 : needle.isPrefixOf (c :: rest) = false := by
            have := hfirst 0 (by omega)
            simpa [occurs_at] using this
          have hpre2 : needle.isPrefixOf (c :: c_str rest) = false := by
            cases hh : needle.isPrefixOf (c :: c_str rest) with
            | false => rfl
            | true =>
              rw [List.isPrefixOf_iff_prefix] at hh
              have hp : needle <+: c :: rest :=
                hh.trans ((List.cons_prefix_cons).mpr ⟨rfl, c_str_is_prefix_of rest⟩)
              rw [← List.isPrefixOf_iff_prefix, h0] at hp
              cases hp
          rw [hcs]
          simp only [find_first, hpre2, Bool.false_eq_true, if_false, ih2]
          rfl

/-- C25: framing searches the bytes in front of the first zero byte of the
datagram: a datagram that passed the filter and the length guard and has a
zero byte at an offset before its first CRLF CRLF is dropped with no
signal and no change of state although the terminator is present; for a
datagram without a zero byte the search runs over exactly the received
bytes. -/
theorem C25_search_stops_at_nul (env : Externals) (have_pktinfo : Bool)
    (priv : GSSDPClientPrivate) (r : Received)
    (hpass : interface_filter env have_pktinfo priv r = true)
    (hlen : r.data.length < BUF_SIZE) :
    strstr (r.data ++ [NUL]) "\r\n\r\n".toList
        = find_first "\r\n\r\n".toList (r.data.takeWhile (fun c => c != NUL))
    ∧ (∀ z k, r.data[z]? = some NUL → z < k →
        occurs_at "\r\n\r\n".toList r.data k = true →
        (∀ j, j < k → occurs_at "\r\n\r\n".toList r.data j = false) →
        socket_source_cb env have_pktinfo priv (some r) = ⟨priv, [], Exit.no_terminator⟩)
    ∧ ((∀ c ∈ r.data, c ≠ NUL) →
        c_str (r.data ++ [NUL]) = r.data
        ∧ strstr (r.data ++ [NUL]) "\r\n\r\n".toList
            = find_first "\r\n\r\n".toList r.data) := by
  have hne : "\r\n\r\n".toList ≠ [] := by decide
  refine ⟨?_, ?_, ?_⟩
  · unfold strstr
    rw [c_str_append_nul]
    rfl
  · intro z k hz hzk _ hfirst
    rw [cb_of_pass env have_pktinfo priv r hpass hlen]
    apply frame_of_none
    unfold strstr
    rw [c_str_append_nul]
    exact find_first_c_str_none _ hne r.data z k hz hzk hfirst
  · intro hno
    have hc : c_str (r.data ++ [NUL]) = r.data := by
      rw [c_str_append_nul, c_str_of_no_nul r.data hno]
    refine ⟨hc, ?_⟩
    unfold strstr
    rw [hc]

/-- Witness of C25: the M-SEARCH datagram has no zero byte, so the search
runs over its 65 bytes and finds the terminator at offset 61. -/
theorem C25_search_stops_at_nul_witness :
    interface_filter (sample_env sample_bad_request sample_bad_response) true sample_priv
        (sample_received sample_msearch 2 ⟨2, [192, 168, 1, 10]⟩) = true
    ∧ sample_msearch.length < BUF_SIZE
    ∧ (∀ c ∈ sample_msearch, c ≠ NUL)
    ∧ strstr (sample_msearch ++ [NUL]) "\r\n\r\n".toList
        = find_first "\r\n\r\n".toList sample_msearch :=
  ⟨by decide, by decide, by decide,
   ((C25_search_stops_at_nul (sample_env sample_bad_request sample_bad_response) true
      sample_priv (sample_received sample_msearch 2 ⟨2, [192, 168, 1, 10]⟩)
      (by decide) (by decide)).2.2 (by decide)).2⟩

/-! ## Lemmas on the round trip -/

theorem occurs_at_cons_succ (needle : List Char) (c : Char) (l : List Char) (j : Nat) :
    occurs_at needle (c :: l) (j + 1) = occurs_at needle l j := by
  simp [occurs_at]

theorem occurs_at_nil (j : Nat) : occurs_at "\r\n\r\n".toList [] j = false := by
  simp [occurs_at]

theorem needle_prefix_shape (l : List Char)
    (h : ("\r\n\r\n".toList).isPrefixOf l = true) :
    ∃ t, l = '\r' :: '\n' :: '\r' :: '\n' :: t := by
  rw [List.isPrefixOf_iff_prefix] at h
  obtain ⟨t, ht⟩ := h
  exact ⟨t, ht.symm⟩

theorem needle_prefix_of_shape (t : List Char) :
    ("\r\n\r\n".toList).isPrefixOf ('\r' :: '\n' :: '\r' :: '\n' :: t) = true := by
  rw [List.isPrefixOf_iff_prefix]
  exact ⟨t, rfl⟩

theorem no_needle_append (A B : List Char)
    (hA : ∀ j, occurs_at "\r\n\r\n".toList A j = false)
    (hhead : ∀ c, B.head? = some c → c ≠ '\r' ∧ c ≠ '\n')
    (hB : ∀ j, occurs_at "\r\n\r\n".toList B j = false) :
    ∀ j, occurs_at "\r\n\r\n".toList (A ++ B) j = false := by
  induction A with
  | nil => simpa using hB
  | cons a as ih =>
    have hA2 : ∀ j, occurs_at "\r\n\r\n".toList as j = false := by
      intro j
      have := hA (j + 1)
      rwa [occurs_at_cons_succ] at this
    intro j
    cases j with
    | succ j2 =>
      rw [List.cons_append, occurs_at_cons_succ]
      exact ih hA2 j2
    | zero =>
      have h0 := hA 0
      rw [Bool.eq_false_iff]
      intro hocc
      simp only [occurs_at, List.drop_zero] at hocc h0
      obtain ⟨t, ht⟩ := needle_prefix_shape _ hocc
      cases B with
      | nil =>
        rw [List.append_nil] at hocc
        rw [hocc] at h0
        cases h0
      | cons b bs =>
        obtain ⟨hb1, hb2⟩ := hhead b rfl
        rcases as with _ | ⟨x, _ | ⟨y, _ | ⟨z, t2⟩⟩⟩
        · simp only [List.cons_append, List.nil_append, List.cons.injEq] at ht
          exact hb2 ht.2.1
        · simp only [List.cons_append, List.nil_append, List.cons.injEq] at ht
          exact hb1 ht.2.2.1
        · simp only [List.cons_append, List.nil_append, List.cons.injEq] at ht
          exact hb2 ht.2.2.2.1
        · simp only [List.cons_append, List.cons.injEq] at ht
          obtain ⟨e1, e2, e3, e4, _⟩ := ht
          subst e1 e2 e3 e4
          rw [needle_prefix_of_shape] at h0
          cases h0

theorem no_needle_line (W : List Char) (hW : ∀ c ∈ W, c ≠ '\r') :
    ∀ j, occurs_at "\r\n\r\n".toList (W ++ "\r\n".toList) j = false := by
  induction W with
  | nil =>
    intro j
    rcases j with _ | _ | j
    · decide
    · decide
    · simp [occurs_at]
  | cons w ws ih =>
    intro j
    cases j with
    | zero =>
      have hw : w ≠ '\r' := hW w (by simp)
      rw [Bool.eq_false_iff]
      intro hocc
      simp only [occurs_at, List.drop_zero] at hocc
      obtain ⟨t, ht⟩ := needle_prefix_shape _ hocc
      simp only [List.cons_append, List.cons.injEq] at ht
      exact hw ht.1
    | succ j2 =>
      rw [List.cons_append, occurs_at_cons_succ]
      exact ih (fun c hc => hW c (by simp [hc])) j2

theorem header_line_shape (h : GSSDPHeaderField) :
    header_line h = (h.name ++ ": ".toList ++ h.value.getD []) ++ "\r\n".toList := by
  rfl

theorem header_line_head (h : GSSDPHeaderField)
    (hname : ∀ c ∈ h.name, c ≠ '\r' ∧ c ≠ '\n') (rest : List Char) :
    ∀ c, (header_line h ++ rest).head? = some c → c ≠ '\r' ∧ c ≠ '\n' := by
  intro c hc
  cases hn : h.name with
  | nil =>
    simp only [header_line, hn, List.nil_append, String.toList, List.cons_append,
      List.head?_cons, Option.some.injEq] at hc
    subst hc
    exact ⟨by decide, by decide⟩
  | cons x xs =>
    simp only [header_line, hn, List.cons_append, List.head?_cons, Option.some.injEq] at hc
    subst hc
    exact hname x (by simp [hn])

theorem header_lines_props (nodes : List GSSDPHeaderField)
    (hnodes : ∀ h ∈ nodes, (∀ c ∈ h.name, c ≠ '\r' ∧ c ≠ '\n' ∧ c ≠ NUL)
        ∧ (∀ c ∈ h.value.getD [], c ≠ '\r' ∧ c ≠ '\n' ∧ c ≠ NUL)) :
    (∀ c, (header_lines nodes).head? = some c → c ≠ '\r' ∧ c ≠ '\n')
    ∧ (∀ j, occurs_at "\r\n\r\n".toList (header_lines nodes) j = false)
    ∧ (∀ c ∈ header_lines nodes, c ≠ NUL) := by
  induction nodes with
  | nil =>
    refine ⟨?_, occurs_at_nil, ?_⟩
    · intro c hc
      simp [header_lines] at hc
    · intro c hc
      simp [header_lines] at hc
  | cons h t ih =>
    obtain ⟨hname, hvalue⟩ := hnodes h (by simp)
    obtain ⟨ih1, ih2, ih3⟩ := ih (fun x hx => hnodes x (by simp [hx]))
    have hW : ∀ c ∈ h.name ++ ": ".toList ++ h.value.getD [], c ≠ '\r' ∧ c ≠ NUL := by
      intro c hc
      simp only [List.mem_append] at hc
      rcases hc with (hc | hc) | hc
      · exact ⟨(hname c hc).1, (hname c hc).2.2⟩
      · have : c = ':' ∨ c = ' ' := by simpa using hc
        rcases this with e | e <;> subst e <;> exact ⟨by decide, by decide⟩
      · exact ⟨(hvalue c hc).1, (hvalue c hc).2.2⟩
    refine ⟨?_, ?_, ?_⟩
    · exact header_line_head h (fun c hc => ⟨(hname c hc).1, (hname c hc).2.1⟩) _
    · apply no_needle_append _ _ _ ih1 ih2
      rw [header_line_shape]
      exact no_needle_line _ (fun c hc => (hW c hc).1)
    · intro c hc
      simp only [header_lines, List.mem_append] at hc
      rcases hc with hc | hc
      · rw [header_line_shape, List.mem_append] at hc
        rcases hc with hc | hc
        · exact (hW c hc).2
        · have : c = '\r' ∨ c = '\n' := by simpa using hc
          rcases this with e | e <;> subst e <;> decide
      · exact ih3 c hc

theorem ends_with_crlf (nodes : List GSSDPHeaderField) (X : List Char)
    (hX : ∃ X2, X = X2 ++ "\r\n".toList) :
    ∃ M2, X ++ header_lines nodes = M2 ++ "\r\n".toList := by
  induction nodes generalizing X with
  | nil =>
    obtain ⟨X2, h⟩ := hX
    exact ⟨X2, by simp [header_lines, h]⟩
  | cons h t ih =>
    have hstep : ∃ X2, X ++ header_line h = X2 ++ "\r\n".toList :=
      ⟨X ++ (h.name ++ ": ".toList ++ h.value.getD []), by
        rw [header_line_shape]
        simp only [List.append_assoc]⟩
    obtain ⟨M2, hM⟩ := ih (X ++ header_line h) hstep
    exact ⟨M2, by rw [← hM]; simp [header_lines]⟩

theorem first_needle_at_end (X : List Char)
    (hX : ∀ j, occurs_at "\r\n\r\n".toList (X ++ "\r\n".toList) j = false) :
    ∀ j, j < X.length → occurs_at "\r\n\r\n".toList (X ++ "\r\n\r\n".toList) j = false := by
  induction X with
  | nil =>
    intro j hj
    simp at hj
  | cons x xs ih =>
    have hX2 : ∀ j, occurs_at "\r\n\r\n".toList (xs ++ "\r\n".toList) j = false := by
      intro j
      have := hX (j + 1)
      rwa [List.cons_append, occurs_at_cons_succ] at this
    intro j hj
    cases j with
    | succ j2 =>
      rw [List.cons_append, occurs_at_cons_succ]
      exact ih hX2 j2 (by simpa using hj)
    | zero =>
      have h0 := hX 0
      rw [Bool.eq_false_iff]
      intro hocc
      simp only [occurs_at, List.drop_zero] at hocc h0
      obtain ⟨t, ht⟩ := needle_prefix_shape _ hocc
      rcases xs with _ | ⟨y, _ | ⟨z, _ | ⟨w, t2⟩⟩⟩
      · simp only [List.cons_append, List.nil_append, String.toList, List.cons.injEq] at ht
        exact absurd ht.2.1 (by decide)
      · simp only [List.cons_append, List.nil_append, String.toList, List.cons.injEq] at ht
        obtain ⟨e1, e2, _⟩ := ht
        subst e1 e2
        revert h0
        decide
      · simp only [List.cons_append, List.nil_append, String.toList, List.cons.injEq] at ht
        exact absurd ht.2.2.2.1 (by decide)
      · simp only [List.cons_append, List.cons.injEq] at ht
        obtain ⟨e1, e2, e3, e4, _⟩ := ht
        subst e1 e2 e3 e4
        simp only [List.cons_append] at h0
        rw [needle_prefix_of_shape] at h0
        cases h0

/-- C22: when the received datagram is the message that
`append_header_fields` assembles from a body (a C string, so free of zero
bytes) that ends with CRLF and contains no CRLF CRLF and from headers whose
names and values contain no CR, LF or zero byte, and it is shorter than the
buffer and passes the interface filter, then framing does not drop it: the
first CRLF CRLF is its last four bytes, the parsers get the header length
total minus 2, and the header block is the body followed by the header
lines in insertion order. -/
theorem C22_send_receive_round_trip (env : Externals) (have_pktinfo : Bool)
    (priv : GSSDPClientPrivate) (r : Received)
    (nodes : List GSSDPHeaderField) (body : List Char)
    (hdata : r.data = append_header_fields nodes body)
    (hpass : interface_filter env have_pktinfo priv r = true)
    (hend : "\r\n".toList <:+ body)
    (hbody : ∀ j, j < body.length → occurs_at "\r\n\r\n".toList body j = false)
    (hbody_nul : ∀ c ∈ body, c ≠ NUL)
    (hnodes : ∀ h ∈ nodes, (∀ c ∈ h.name, c ≠ '\r' ∧ c ≠ '\n' ∧ c ≠ NUL)
        ∧ (∀ c ∈ h.value.getD [], c ≠ '\r' ∧ c ≠ '\n' ∧ c ≠ NUL))
    (hlen : r.data.length < 65536) :
    socket_source_cb env have_pktinfo priv (some r)
        = socket_source_cb_parse env priv r (r.data ++ [NUL]) (r.data.length - 2)
    ∧ occurs_at "\r\n\r\n".toList r.data (r.data.length - 4) = true
    ∧ (∀ j, j < r.data.length - 4 → occurs_at "\r\n\r\n".toList r.data j = false)
    ∧ (r.data ++ [NUL]).take (r.data.length - 2) = body ++ header_lines nodes := by
  have hne : "\r\n\r\n".toList ≠ [] := by decide
  have hbody_all : ∀ j, occurs_at "\r\n\r\n".toList body j = false := by
    intro j
    by_cases hj : j < body.length
    · exact hbody j hj
    · have hd : body.drop j = [] := List.drop_eq_nil_of_le (by omega)
      simp [occurs_at, hd]
  obtain ⟨hh1, hh2, hh3⟩ := header_lines_props nodes hnodes
  have hM := no_needle_append body (header_lines nodes) hbody_all hh1 hh2
  obtain ⟨b2, hb2⟩ := hend
  obtain ⟨M2, hM2⟩ := ends_with_crlf nodes body ⟨b2, hb2.symm⟩
  have hd : r.data = M2 ++ "\r\n\r\n".toList := by
    rw [hdata, append_header_fields_eq, hM2, List.append_assoc]
    rfl
  have hlen4 : r.data.length = M2.length + 4 := by
    rw [hd]
    simp
  rw [hM2] at hM
  have hfirst := first_needle_at_end M2 hM
  have hocc : occurs_at "\r\n\r\n".toList (M2 ++ "\r\n\r\n".toList) M2.length = true := by
    simp only [occurs_at, List.drop_left]
    rw [List.isPrefixOf_iff_prefix]
  have hnul : ∀ c ∈ (M2 ++ "\r\n\r\n".toList).take M2.length, c ≠ NUL := by
    intro c hc
    rw [List.take_left] at hc
    have hmem : c ∈ body ++ header_lines nodes := by
      rw [hM2]
      exact List.mem_append_left _ hc
    rcases List.mem_append.mp hmem with h | h
    · exact hbody_nul c h
    · exact hh3 c h
  have hff : find_first "\r\n\r\n".toList r.data = some M2.length := by
    rw [hd]
    exact find_first_of_first_occurrence _ hne _ _ hocc hfirst
  have hstr : strstr (r.data ++ [NUL]) "\r\n\r\n".toList = some M2.length := by
    unfold strstr
    rw [c_str_append_nul]
    apply find_first_c_str _ crlfcrlf_no_nul r.data _ hff
    rw [hd]
    exact hnul
  have e2 : r.data.length - 2 = M2.length + 2 := by omega
  have e4 : r.data.length - 4 = M2.length := by omega
  refine ⟨?_, ?_, ?_, ?_⟩
  · rw [cb_of_pass env have_pktinfo priv r hpass hlen, frame_of_some env priv r _ hstr, e2]
  · rw [e4, hd]
    exact hocc
  · intro j hj
    rw [e4] at hj
    rw [hd]
    exact hfirst j hj
  · rw [e2, take_header_block r.data M2.length hff, hM2, hd, List.take_left]

/-- Witness of C22: the M-SEARCH body of the specification with the
headers X-Foo 1, X-Foo 2 and Y is framed with its header block equal to
the body followed by the three header lines. -/
theorem C22_send_receive_round_trip_witness :
    interface_filter (sample_env sample_bad_request sample_bad_response) true sample_priv
        (sample_received (append_header_fields sample_headers sample_body) 2
          ⟨2, [192, 168, 1, 10]⟩) = true
    ∧ (append_header_fields sample_headers sample_body).length < 65536
    ∧ ((sample_received (append_header_fields sample_headers sample_body) 2
          ⟨2, [192, 168, 1, 10]⟩).data ++ [NUL]).take
        ((sample_received (append_header_fields sample_headers sample_body) 2
          ⟨2, [192, 168, 1, 10]⟩).data.length - 2)
      = sample_body ++ header_lines sample_headers :=
  ⟨by decide, by decide,
   (C22_send_receive_round_trip (sample_env sample_bad_request sample_bad_response) true
      sample_priv
      (sample_received (append_header_fields sample_headers sample_body) 2
        ⟨2, [192, 168, 1, 10]⟩)
      sample_headers sample_body rfl (by decide)
      ⟨"M-SEARCH * HTTP/1.1\r\nHOST: 239.255.255.250:1900".toList, rfl⟩
      (by decide) (by decide) (by decide) (by decide)).2.2.2⟩

end GSSDP
